import Mathlib

/-
Shallow embedding of the AWG sequence compiler and programmer of
src/modules/pulsar/pulsar.py (classes Pulsar and Sequence).

Python dictionaries are modelled as insertion-ordered association lists
with unique keys (assignment updates in place or appends, matching
CPython dict semantics).  Device communication (self.AWG.<call>) is
modelled as a trace of Call values.  Python exceptions are modelled with
Except String; a computation that both emits device calls and may raise
is a pair of the emitted trace and an Except result (the trace is kept
when an exception is raised, since already-issued device calls are not
undone).  numpy sample arrays are lists of rationals.
-/

namespace QtPulsar

/-- Python string slicing s[:3] (up to the first three characters). -/
def pySlice3 (s : String) : String := String.mk (s.data.take 3)

/-- Python indexing s[i] into a string, None when out of range. -/
def pyCharAt (s : String) (i : Nat) : Option Char := s.data.get? i

/-- Python int(c) on a single character: its digit value, None when the
character is not a decimal digit. -/
def digitVal (c : Char) : Option Nat :=
  if c.isDigit then some (c.toNat - 48) else none

/-- Python substring test (sub in s). -/
def strContains (s sub : String) : Bool :=
  (List.range (s.length + 1)).any (fun i => sub.isPrefixOf (s.drop i))

/-- Python dict assignment d[k] = v: update the existing entry in place,
or append a new one (CPython dicts preserve insertion order). -/
def dictAssign {α β : Type} [DecidableEq α] :
    List (α × β) → α → β → List (α × β)
  | [], k, v => [(k, v)]
  | (k0, v0) :: rest, k, v =>
    if k0 = k then (k, v) :: rest else (k0, v0) :: dictAssign rest k v

/-- Python dict lookup d[k], None when the key is absent. -/
def pyDictGet {α β : Type} [DecidableEq α] :
    List (α × β) → α → Option β
  | [], _ => none
  | (k0, v0) :: rest, k => if k0 = k then some v0 else pyDictGet rest k

/-- One logical channel record, as stored in Pulsar.channels. -/
structure ChanInfo where
  id : String
  type : String
  delay : Rat
  offset : Rat
  high : Rat
  low : Rat
  active : Bool
  skew : Rat
deriving DecidableEq

/-- The mutable AWG_sequence_cfg dictionary: only the keys the pulsar
module itself reads or writes are modelled (JUMP_TIMING,
EVENT_JUMP_MODE, TABLE_JUMP_DEFINITION); a missing key is None. -/
structure AwgSeqCfg where
  jump_timing : Option Int
  event_jump_mode : Option Int
  table_jump_definition : Option (List Nat)
deriving DecidableEq

/-- The Pulsar object state: device type tag, the channels dict
(name to channel record, insertion ordered) and the sequence cfg. -/
structure Pulsar where
  AWG_type : String
  channels : List (String × ChanInfo)
  AWG_sequence_cfg : AwgSeqCfg
deriving DecidableEq

/-- The class attribute Pulsar.channel_ids, verbatim from the source
(note the source lists the ch3 triple twice and has no ch4 group). -/
def channel_ids : List String :=
  ["ch1", "ch1_marker1", "ch1_marker2",
   "ch2", "ch2_marker1", "ch2_marker2",
   "ch3", "ch3_marker1", "ch3_marker2",
   "ch3", "ch3_marker1", "ch3_marker2"]

/-- One sequence element record, as built by Sequence._make_element_spec. -/
structure SeqElt where
  name : String
  wfname : String
  repetitions : Nat
  goto_target : Option String
  jump_target : Option String
  trigger_wait : Bool
deriving DecidableEq

/-- A Sequence: a name, the ordered element list, and the optional
dynamic-jump table (None when djump is disabled; a dict from integer
addresses to element names when enabled). -/
structure Sequence where
  name : String
  elements : List SeqElt
  djump_table : Option (List (Nat × String))
deriving DecidableEq

/-- An Element as seen by the pulsar module: its name, its sample count
(element.samples()) and the per-logical-channel-name waveform dict
returned by element.normalized_waveforms(). -/
structure Element where
  name : String
  samples : Nat
  wfs : List (String × List Rat)
deriving DecidableEq

/-- A packed waveform blob: the triple of arrays passed to
AWG.pack_waveform. -/
structure Packed where
  analog : List Rat
  marker1 : List Rat
  marker2 : List Rat
deriving DecidableEq

/-- One device transaction issued through self.AWG. -/
inductive Call where
  | stop
  | start
  | set_runmode (m : String)
  | set_event_jump_timing (m : String)
  | set_status (ch : String) (s : String)
  | set_low (ch : String) (v : Rat)
  | set_high (ch : String) (v : Rat)
  | set_amplitude (ch : String) (v : Rat)
  | set_offset (ch : String) (v : Rat)
  | set_sq_length (n : Nat)
  | set_sqel_waveform (wf : String) (chanidx : Nat) (idx : Nat)
  | set_sqel_loopcnt_to_inf (idx : Nat) (b : Bool)
  | set_sqel_loopcnt (n : Nat) (idx : Nat)
  | set_sqel_goto_state (idx : Nat) (s : String)
  | set_sqel_goto_target_index (idx : Nat) (t : Nat)
  | set_sqel_event_jump_type (idx : Nat) (s : String)
  | set_sqel_event_jump_target_index (idx : Nat) (t : Nat)
  | set_sqel_trigger_wait (idx : Nat) (v : Nat)
  | set_event_jump_mode (m : String)
  | set_djump_def (i : Nat) (v : Nat)
  | send_waveform (analog m1 m2 : List Rat) (name : String)
  | import_waveform_file (a b : String) (t : String)
  | pack_waveform (analog m1 m2 : List Rat)
  | generate_awg_file (pw : List (String × Packed)) (wfl : List (List String))
      (nrep : List Nat) (wait : List Nat) (goto : List Nat) (jump : List Nat)
      (ccfg : List (String × Rat)) (scfg : AwgSeqCfg)
  | send_awg_file (fn : String)
  | load_awg_file (fn : String)
  | delete_all_waveforms
deriving DecidableEq

/-- A device-talking computation: the trace of issued calls paired with
an Except result (trace kept when an exception is raised). -/
def Tr (α : Type) : Type := List Call × Except String α

/-- Sequencing of two device-talking computations. -/
def tbind {α β : Type} (x : Tr α) (f : α → Tr β) : Tr β :=
  match x with
  | (c, Except.error e) => (c, Except.error e)
  | (c, Except.ok a) => (c ++ (f a).1, (f a).2)

/-- A pure result with no device traffic. -/
def tpure {α : Type} (a : α) : Tr α := ([], Except.ok a)

/-- Emit device calls. -/
def temit (cs : List Call) : Tr Unit := (cs, Except.ok ())

/-- Raise a Python exception. -/
def tfail {α : Type} (e : String) : Tr α := ([], Except.error e)

/-- Lift an optional value, raising when it is absent. -/
def tlift {α : Type} (o : Option α) (e : String) : Tr α :=
  match o with
  | some a => tpure a
  | none => tfail e

theorem tbind_ok {α β : Type} (c : List Call) (a : α) (f : α → Tr β) :
    tbind (c, Except.ok a) f = (c ++ (f a).1, (f a).2) := rfl

theorem tbind_error {α β : Type} (c : List Call) (e : String) (f : α → Tr β) :
    tbind (c, Except.error e) f = (c, Except.error e) := rfl

/- ### Sequence methods -/

/-- Sequence.element_count. -/
def element_count (s : Sequence) : Nat := s.elements.length

/-- Sequence.element_index: 1-based position of the named element;
None models the ValueError that Python list.index raises when the name
is absent. -/
def element_index (s : Sequence) (name : String) (start_idx : Nat := 1) :
    Option Nat :=
  (List.findIdx? (fun e => e.name == name) s.elements).map (· + start_idx)

/-- Sequence.insert_element: rejected (False, no mutation) when the name
is already present, otherwise the element record is inserted at pos
(default: appended) and True is returned. -/
def insert_element (s : Sequence) (name wfname : String)
    (pos : Option Nat := none) (repetitions : Nat := 1)
    (goto_target : Option String := none) (jump_target : Option String := none)
    (trigger_wait : Bool := false) : Sequence × Bool :=
  if s.elements.any (fun e => e.name == name) then (s, false)
  else
    let elt : SeqElt :=
      ⟨name, wfname, repetitions, goto_target, jump_target, trigger_wait⟩
    let p := pos.getD s.elements.length
    ({ s with elements := s.elements.take p ++ elt :: s.elements.drop p }, true)

/-- Sequence.append: insert_element at the end; the Python method has no
return statement, so the insertion result is dropped (None). -/
def Sequence.append (s : Sequence) (name wfname : String)
    (repetitions : Nat := 1) (goto_target : Option String := none)
    (jump_target : Option String := none) (trigger_wait : Bool := false) :
    Sequence :=
  (insert_element s name wfname (some s.elements.length) repetitions
    goto_target jump_target trigger_wait).1

/-- Sequence.append_element: like insert_element but takes a ready-made
element record. -/
def append_element (s : Sequence) (element : SeqElt)
    (pos : Option Nat := none) : Sequence × Bool :=
  if s.elements.any (fun e => e.name == element.name) then (s, false)
  else
    let p := pos.getD s.elements.length
    ({ s with elements :=
        s.elements.take p ++ element :: s.elements.drop p }, true)

/-- Sequence.set_djump: True enables the table (fresh empty dict),
False disables it (None); returns True. -/
def set_djump (s : Sequence) (state : Bool) : Sequence × Bool :=
  if state then ({ s with djump_table := some [] }, true)
  else ({ s with djump_table := none }, true)

/-- Sequence.add_djump_address: plain dict assignment
djump_table[pattern] = name with no bound check; raises (TypeError) when
the table is disabled, returns True otherwise. -/
def add_djump_address (s : Sequence) (pattern : Nat) (name : String) :
    Except String (Sequence × Bool) :=
  match s.djump_table with
  | none => Except.error "TypeError: djump_table is None"
  | some t =>
    Except.ok ({ s with djump_table := some (dictAssign t pattern name) }, true)

/- ### Pulsar channel registry -/

/-- Pulsar.get_subchannels: the triple is built from id[:3], the first
three characters of the argument, not from the full id. -/
def get_subchannels (id : String) : List String :=
  [pySlice3 id, pySlice3 id ++ "_marker1", pySlice3 id ++ "_marker2"]

/-- Pulsar.get_channel_names_by_id: for each of the three sub-channel
ids (id, id_marker1, id_marker2) the name of the channel currently bound
to it, scanning the channels dict in insertion order (later entries
overwrite earlier ones, as in the Python loop). -/
def get_channel_names_by_id (p : Pulsar) (id : String) :
    Option String × Option String × Option String :=
  p.channels.foldl
    (fun acc pr =>
      let n := pr.2.id
      let a := if n = id then some pr.1 else acc.1
      let b := if n = id ++ "_marker1" then some pr.1 else acc.2.1
      let c := if n = id ++ "_marker2" then some pr.1 else acc.2.2
      (a, b, c))
    (none, none, none)

/-- Pulsar.get_used_channel_ids: the deduplicated list of 3-character
physical prefixes of the ids of active channels, in dict order. -/
def get_used_channel_ids (p : Pulsar) : List String :=
  p.channels.foldl
    (fun chans pr =>
      if pr.2.active && !(chans.contains (pySlice3 pr.2.id)) then
        chans ++ [pySlice3 pr.2.id]
      else chans)
    []

/-- The channels argument of the public operations: the literal string
all, or a list of logical channel names. -/
inductive ChanArg where
  | all
  | subset (names : List String)
deriving DecidableEq

/-- Python s[-1] as a one-character string (the source never applies it
to an empty id; the model returns the empty string there). -/
def pyLast1 (s : String) : String := String.mk (s.data.drop (s.data.length - 1))

/-- Python s[2] as a one-character string (empty when the id is shorter,
where the source would raise; real ids always have length at least 3). -/
def pyAt2 (s : String) : String := String.mk ((s.data.drop 2).take 1)

/-- Pulsar.setup_channels: the device transactions it issues, in order
(all outputs off; optional reset of unused bounds; per-channel bounds
and, when output is requested, per-channel activation). -/
def setup_channels (p : Pulsar) (output : Bool := false)
    (reset_unused : Bool := true) : List Call :=
  (channel_ids.map (fun n => Call.set_status (pySlice3 n) "off"))
  ++ (if reset_unused then
        channel_ids.flatMap (fun n =>
          if strContains n "marker" then
            [Call.set_low n 0, Call.set_high n 1]
          else
            [Call.set_amplitude n 2, Call.set_offset n 0])
      else [])
  ++ p.channels.flatMap (fun pr =>
      (if pr.2.type = "analog" then
        [Call.set_amplitude pr.2.id (pr.2.high - pr.2.low),
         Call.set_offset pr.2.id ((pr.2.high + pr.2.low) / 2)]
      else if pr.2.type = "marker" then
        [Call.set_low pr.2.id pr.2.low, Call.set_high pr.2.id pr.2.high]
      else [])
      ++ (if output && pr.2.active then
            [Call.set_status (pySlice3 pr.2.id) "on"] else []))

/-- Pulsar.activate_channels: for each used physical id, turn the output
on when any of its three sub-channels is bound to a channel that passes
the filter and is active.  The inner dict access
channels[names[sid]] always succeeds in Python because the name was
taken from the dict; the model treats a (dead) missing key as inactive. -/
def activate_channels (p : Pulsar) (channels : ChanArg) : List Call :=
  (get_used_channel_ids p).flatMap (fun id =>
    let names := get_channel_names_by_id p id
    let check : Option String → Bool := fun bound =>
      match bound with
      | none => false
      | some nm =>
        (match channels with
         | ChanArg.all => true
         | ChanArg.subset cs => cs.contains nm)
        && (match pyDictGet p.channels nm with
            | some info => info.active
            | none => false)
    if check names.1 || check names.2.1 || check names.2.2 then
      [Call.set_status id "on"]
    else [])

/-- Pulsar.get_awg_channel_cfg: the channel configuration dict of the
batch strategy, built with Python dict-assignment semantics. -/
def get_awg_channel_cfg (p : Pulsar) : List (String × Rat) :=
  p.channels.foldl
    (fun cfg pr =>
      let n := pr.2.id
      let cfg :=
        if pr.2.type = "analog" then
          let cfg := dictAssign cfg ("ANALOG_METHOD_" ++ pyLast1 n) 1
          let cfg := dictAssign cfg ("ANALOG_AMPLITUDE_" ++ pyLast1 n)
            (pr.2.high - pr.2.low)
          let cfg := dictAssign cfg ("ANALOG_OFFSET_" ++ pyLast1 n)
            ((pr.2.high + pr.2.low) / 2)
          dictAssign cfg ("CHANNEL_SKEW_" ++ pyLast1 n) pr.2.skew
        else if pr.2.type = "marker" then
          let cfg := dictAssign cfg ("MARKER1_METHOD_" ++ pyAt2 n) 2
          let cfg := dictAssign cfg ("MARKER2_METHOD_" ++ pyAt2 n) 2
          let cfg := dictAssign cfg
            ("MARKER" ++ pyLast1 n ++ "_LOW_" ++ pyAt2 n) pr.2.low
          let cfg := dictAssign cfg
            ("MARKER" ++ pyLast1 n ++ "_HIGH_" ++ pyAt2 n) pr.2.high
          dictAssign cfg
            ("MARKER" ++ pyLast1 n ++ "_SKEW_" ++ pyAt2 n) pr.2.skew
        else cfg
      dictAssign cfg ("CHANNEL_STATE_" ++ pyLast1 n)
        (if pr.2.active then 1 else 0))
    []

/-- Channel resolution shared by both programming strategies (the
channels argument handling at the top of program_sequence and in the
sequence part of program_awg): all gives the used physical ids; a list
of names gives their deduplicated physical prefixes, raising KeyError on
an unknown name. -/
def resolveChanIds (p : Pulsar) (channels : ChanArg) :
    Except String (List String) :=
  match channels with
  | ChanArg.all => Except.ok (get_used_channel_ids p)
  | ChanArg.subset cs =>
    cs.foldl
      (fun acc c =>
        match acc with
        | Except.error e => Except.error e
        | Except.ok chans =>
          match pyDictGet p.channels c with
          | none => Except.error ("KeyError: " ++ c)
          | some info =>
            if chans.contains (pySlice3 info.id) then Except.ok chans
            else Except.ok (chans ++ [pySlice3 info.id]))
      (Except.ok [])

/- ### Waveform packing (shared by both upload paths) -/

/-- The samples the element supplies for a sub-channel: present exactly
when a channel name is bound to the sub-channel and the waveform dict of
the element has that name as a key. -/
def suppliedSamples (e : Element) (bound : Option String) :
    Option (List Rat) :=
  match bound with
  | none => none
  | some n => pyDictGet e.wfs n

/-- The array used for one sub-channel: the supplied samples, or an
all-zero array of length element.samples() (np.zeros) otherwise. -/
def subchannelArray (e : Element) (bound : Option String) : List Rat :=
  (suppliedSamples e bound).getD (List.replicate e.samples 0)

/-- The packed triple for one element on one physical channel: the three
sub-channel arrays in the order analog, marker1, marker2. -/
def packChanWfs (p : Pulsar) (e : Element) (id : String) : Packed :=
  let names := get_channel_names_by_id p id
  ⟨subchannelArray e names.1, subchannelArray e names.2.1,
   subchannelArray e names.2.2⟩

/-- The per-physical-channel upload filter of upload_element and of the
packing loop of program_awg: with a channel-name list, scans it with a
dict lookup per name (KeyError on an unknown name) and keeps the id when
some listed channel lives on it. -/
def uploadFilter (p : Pulsar) (channels : ChanArg) (id : String) :
    Except String Bool :=
  match channels with
  | ChanArg.all => Except.ok true
  | ChanArg.subset cs =>
    cs.foldl
      (fun acc c =>
        match acc with
        | Except.error e => Except.error e
        | Except.ok b =>
          match pyDictGet p.channels c with
          | none => Except.error ("KeyError: " ++ c)
          | some info => Except.ok (b || (pySlice3 info.id == id)))
      (Except.ok false)

/-- The loop body of Pulsar.upload_element over the used physical ids:
for each kept id, send the packed triple as one named waveform and then
register it on the device. -/
def uploadLoop (p : Pulsar) (e : Element) (channels : ChanArg) :
    List String → Tr Unit
  | [] => tpure ()
  | id :: rest =>
    let wfname := e.name ++ "_" ++ id
    match uploadFilter p channels id with
    | Except.error er => tfail er
    | Except.ok b =>
      if b then
        let pk := packChanWfs p e id
        tbind
          (temit [Call.send_waveform pk.analog pk.marker1 pk.marker2 wfname,
                  Call.import_waveform_file wfname wfname "wfm"])
          (fun _ => uploadLoop p e channels rest)
      else uploadLoop p e channels rest

/-- Pulsar.upload_element (the incremental upload path). -/
def upload_element (p : Pulsar) (element : Element)
    (channels : ChanArg := ChanArg.all) : Tr Unit :=
  uploadLoop p element channels (get_used_channel_ids p)

/-- The sub-channel computation of the packing loop of program_awg: the
same array selection as subchannelArray, plus the nonzero-first-sample
flag read from index 0 of the supplied samples (IndexError when they are
empty, exactly as chan_wfs[sid][0] raises on an empty array). -/
def awgSubchannel (e : Element) (bound : Option String) :
    Except String (List Rat × Bool) :=
  match suppliedSamples e bound with
  | some l =>
    match l.head? with
    | none => Except.error "IndexError: index 0 is out of bounds"
    | some x => Except.ok (l, if x = 0 then false else true)
  | none => Except.ok (List.replicate e.samples 0, false)

/- ### Pulsar.program_sequence (incremental strategy) -/

/-- Python int(id[2]): IndexError on a short id, ValueError on a
non-digit character, otherwise the digit (the per-channel index used by
set_sqel_waveform). -/
def pyIntAt2 (id : String) : Except String Nat :=
  match pyCharAt id 2 with
  | none => Except.error "IndexError: string index out of range"
  | some c =>
    match digitVal c with
    | none => Except.error "ValueError: invalid literal for int"
    | some d => Except.ok d

/-- The inner per-channel loop of the element loop of program_sequence:
bind the waveform wfname_id of the element to each involved channel at
this 1-based index. -/
def sqelChannelLoop (elt : SeqElt) (idx : Nat) : List String → Tr Unit
  | [] => tpure ()
  | id :: rest =>
    match pyIntAt2 id with
    | Except.error e => tfail e
    | Except.ok chanidx =>
      tbind
        (temit [Call.set_sqel_waveform (elt.wfname ++ "_" ++ id) chanidx idx])
        (fun _ => sqelChannelLoop elt idx rest)

/-- The body of the element loop of program_sequence for one element at
1-based index idx: waveform bindings, loop count, optional goto,
optional event jump, optional trigger wait (targets resolved through
element_index, whose failure is the Python ValueError of list.index). -/
def perElt (seq : Sequence) (chanIds : List String) (idx : Nat)
    (elt : SeqElt) : Tr Unit :=
  tbind (sqelChannelLoop elt idx chanIds) fun _ =>
  tbind (temit [Call.set_sqel_loopcnt_to_inf idx false,
                Call.set_sqel_loopcnt elt.repetitions idx]) fun _ =>
  tbind (match elt.goto_target with
         | none => tpure ()
         | some t =>
           tbind (temit [Call.set_sqel_goto_state idx "1"]) fun _ =>
           tbind (tlift (element_index seq t)
                    ("ValueError: " ++ t ++ " is not in list")) fun ti =>
           temit [Call.set_sqel_goto_target_index idx ti]) fun _ =>
  tbind (match elt.jump_target with
         | none => tpure ()
         | some t =>
           tbind (temit [Call.set_sqel_event_jump_type idx "IND"]) fun _ =>
           tbind (tlift (element_index seq t)
                    ("ValueError: " ++ t ++ " is not in list")) fun ti =>
           temit [Call.set_sqel_event_jump_target_index idx ti]) fun _ =>
  if elt.trigger_wait then temit [Call.set_sqel_trigger_wait idx 1]
  else tpure ()

/-- The element loop of program_sequence (for i, elt in enumerate): runs
perElt at indices i+1 and returns the final value of the loop variable
idx, None when the loop body never ran (mirroring the Python scoping
that C10 is about). -/
def elementLoop (seq : Sequence) (chanIds : List String) :
    Nat → List SeqElt → Tr (Option Nat)
  | _, [] => tpure none
  | i, elt :: rest =>
    tbind (perElt seq chanIds (i + 1) elt) fun _ =>
    tbind (elementLoop seq chanIds (i + 1) rest) fun r =>
    tpure (some (r.getD (i + 1)))

/-- The loop-forcing step of program_sequence: when loop is requested,
read the loop variable idx (NameError when it was never bound) and force
the goto of that last index to enabled with target 1. -/
def forceStep (loop : Bool) (lastIdx : Option Nat) : Tr Unit :=
  if loop then
    match lastIdx with
    | none => tfail "NameError: name idx is not defined"
    | some idx =>
      temit [Call.set_sqel_goto_state idx "1",
             Call.set_sqel_goto_target_index idx 1]
  else tpure ()

/-- The event-jump-timing configuration read: KeyError when the cfg dict
has no JUMP_TIMING key. -/
def jumpTimingStep (p : Pulsar) : Tr Unit :=
  match p.AWG_sequence_cfg.jump_timing with
  | none => tfail "KeyError: JUMP_TIMING"
  | some v =>
    temit [Call.set_event_jump_timing (if v = 1 then "SYNC" else "ASYNC")]

/-- The write-back loop over the configured djump addresses of
program_sequence. -/
def djumpWriteLoop (seq : Sequence) : List (Nat × String) → Tr Unit
  | [] => tpure ()
  | (i, nm) :: rest =>
    tbind (tlift (element_index seq nm)
             ("ValueError: " ++ nm ++ " is not in list")) fun ti =>
    tbind (temit [Call.set_djump_def i ti]) fun _ =>
    djumpWriteLoop seq rest

/-- The jump-mode and djump-table section of program_sequence: raise
when a djump table is present but the device type does not support it;
on supporting hardware either switch to DJUM and rewrite the 16-slot
table (clear all slots to 0 first, then write the configured entries) or
switch to plain EJUM. -/
def djumpPhaseSeq (p : Pulsar) (seq : Sequence) : Tr Unit :=
  if seq.djump_table ≠ none ∧ p.AWG_type ∉ (["opt09"] : List String) then
    tfail "The AWG configured does not support dynamic jumping"
  else if p.AWG_type ∈ (["opt09"] : List String) then
    match seq.djump_table with
    | some tbl =>
      tbind (temit [Call.set_event_jump_mode "DJUM"]) fun _ =>
      tbind (temit ((List.range 16).map (fun i => Call.set_djump_def i 0)))
        fun _ =>
      djumpWriteLoop seq tbl
    | none => temit [Call.set_event_jump_mode "EJUM"]
  else tpure ()

/-- Pulsar.program_sequence: resolve the involved physical channels,
prepare the device, rewrite the whole sequencer element by element,
apply the loop policy, activate outputs, configure the jump mode, and
optionally start. -/
def program_sequence (p : Pulsar) (sequence : Sequence)
    (channels : ChanArg := ChanArg.all) (loop : Bool := true)
    (start : Bool := false) : Tr Unit :=
  match resolveChanIds p channels with
  | Except.error e => tfail e
  | Except.ok chan_ids =>
    tbind (temit [Call.stop, Call.set_runmode "SEQ"]) fun _ =>
    tbind (jumpTimingStep p) fun _ =>
    tbind (temit (setup_channels p)) fun _ =>
    tbind (temit [Call.set_sq_length 0,
                  Call.set_sq_length (element_count sequence)]) fun _ =>
    tbind (elementLoop sequence chan_ids 0 sequence.elements) fun lastIdx =>
    tbind (forceStep loop lastIdx) fun _ =>
    tbind (temit (activate_channels p channels)) fun _ =>
    tbind (djumpPhaseSeq p sequence) fun _ =>
    if start then temit [Call.start] else tpure ()

/- ### Pulsar.program_awg (batch strategy) -/

/-- Packing of one element on one physical id in program_awg: the three
sub-channel arrays plus the names appended to the nonzero-first-point
list (one per supplied sub-channel whose first sample is nonzero, in
sub-channel order). -/
def packOne (p : Pulsar) (e : Element) (id : String) :
    Except String (Packed × List String) :=
  let names := get_channel_names_by_id p id
  match awgSubchannel e names.1 with
  | Except.error er => Except.error er
  | Except.ok (a0, f0) =>
    match awgSubchannel e names.2.1 with
    | Except.error er => Except.error er
    | Except.ok (a1, f1) =>
      match awgSubchannel e names.2.2 with
      | Except.error er => Except.error er
      | Except.ok (a2, f2) =>
        Except.ok (⟨a0, a1, a2⟩,
          (if f0 then [e.name] else []) ++ (if f1 then [e.name] else [])
            ++ (if f2 then [e.name] else []))

/-- The per-physical-id packing loop of program_awg for one element:
keep the ids passing the channel filter, emit one pack_waveform call per
kept id and record the blob under elementName_id. -/
def packIdLoop (p : Pulsar) (channels : ChanArg) (e : Element) :
    List String → List (String × Packed) → List String →
    Tr (List (String × Packed) × List String)
  | [], pw, nz => tpure (pw, nz)
  | id :: rest, pw, nz =>
    let wfname := e.name ++ "_" ++ id
    match uploadFilter p channels id with
    | Except.error er => tfail er
    | Except.ok b =>
      if b then
        match packOne p e id with
        | Except.error er => tfail er
        | Except.ok (pk, nzAdd) =>
          tbind (temit [Call.pack_waveform pk.analog pk.marker1 pk.marker2])
            fun _ => packIdLoop p channels e rest (dictAssign pw wfname pk)
              (nz ++ nzAdd)
      else packIdLoop p channels e rest pw nz

/-- The packing loop of program_awg over the elements passed in,
accumulating the packed-waveform dict and the nonzero-first-point
names. -/
def packPhase (p : Pulsar) (channels : ChanArg) (chanIds : List String) :
    List Element → List (String × Packed) → List String →
    Tr (List (String × Packed) × List String)
  | [], pw, nz => tpure (pw, nz)
  | e :: rest, pw, nz =>
    tbind (packIdLoop p channels e chanIds pw nz) fun pwnz =>
    packPhase p channels chanIds rest pwnz.1 pwnz.2

/-- The per-channel waveform-name lists of program_awg:
wfname_l[channel] = [elt.wfname + "_" + id  for elt in sequence]. -/
def buildWfnameL (chanIds : List String) (seq : Sequence) :
    List (List String) :=
  chanIds.map (fun id => seq.elements.map (fun elt => elt.wfname ++ "_" ++ id))

/-- Branch-target resolution of the property loop: 0 when no target is
set, else the 1-based element index (ValueError when the name is not in
the sequence). -/
def targetIndex (seq : Sequence) (t : Option String) : Except String Nat :=
  match t with
  | none => Except.ok 0
  | some nm =>
    match element_index seq nm with
    | none => Except.error ("ValueError: " ++ nm ++ " is not in list")
    | some ti => Except.ok ti

/-- The property loop of program_awg: the four parallel per-element
lists nrep_l, wait_l, goto_l, logic_jump_l, in element order. -/
def buildPropsLoop (seq : Sequence) :
    List SeqElt → Except String (List Nat × List Nat × List Nat × List Nat)
  | [] => Except.ok ([], [], [], [])
  | elt :: rest =>
    match targetIndex seq elt.goto_target with
    | Except.error e => Except.error e
    | Except.ok g =>
      match targetIndex seq elt.jump_target with
      | Except.error e => Except.error e
      | Except.ok j =>
        match buildPropsLoop seq rest with
        | Except.error e => Except.error e
        | Except.ok (nr, wt, gl, jl) =>
          Except.ok (elt.repetitions :: nr,
            (if elt.trigger_wait then 1 else 0) :: wt, g :: gl, j :: jl)

/-- Python goto_l[-1] = 1: IndexError on an empty list, otherwise the
last entry replaced by 1. -/
def setLastTo1 : List Nat → Except String (List Nat)
  | [] => Except.error "IndexError: list assignment index out of range"
  | l => Except.ok (l.dropLast ++ [1])

/-- The numpy 16-slot djump-table build of program_awg: start from
np.zeros(16) and write elementIndex(name) at each configured address
(in table order); an address outside 0..15 is the numpy IndexError. -/
def buildDjumpArr (seq : Sequence) :
    List (Nat × String) → List Nat → Except String (List Nat)
  | [], arr => Except.ok arr
  | (i, nm) :: rest, arr =>
    match element_index seq nm with
    | none => Except.error ("ValueError: " ++ nm ++ " is not in list")
    | some ti =>
      if i < 16 then buildDjumpArr seq rest (arr.set i ti)
      else Except.error "IndexError: index out of bounds for axis 0 with size 16"

/-- The jump-mode section of program_awg: raise on unsupported hardware;
on opt09 hardware record EVENT_JUMP_MODE (2 for dynamic, 1 for event
jump) and, when a table is present, TABLE_JUMP_DEFINITION in the cfg
dict.  (On the dead error path the partial Python cfg mutation is not
modelled: the cfg is only read again on the success path.) -/
def djumpPhaseAwg (p : Pulsar) (seq : Sequence) (cfg : AwgSeqCfg) :
    Except String AwgSeqCfg :=
  if seq.djump_table ≠ none ∧ p.AWG_type ∉ (["opt09"] : List String) then
    Except.error "pulsar: The AWG configured does not support dynamic jumping"
  else if p.AWG_type ∈ (["opt09"] : List String) then
    match seq.djump_table with
    | some tbl =>
      match buildDjumpArr seq tbl (List.replicate 16 0) with
      | Except.error e => Except.error e
      | Except.ok arr =>
        Except.ok { cfg with event_jump_mode := some 2,
                             table_jump_definition := some arr }
    | none => Except.ok { cfg with event_jump_mode := some 1 }
  else Except.ok cfg

/-- The inner per-position scan of check_sequence_consistency: el counts
the positions already scanned, the reported position is 1-based. -/
def scanList (pw : List (String × Packed)) (ch : Nat) :
    Nat → List String → Except String Unit
  | _, [] => Except.ok ()
  | el, wfname :: rest =>
    if (pyDictGet pw wfname).isNone then
      Except.error ("pulsar: waveform name " ++ wfname ++ " , in position "
        ++ toString (el + 1) ++ " , channel " ++ toString ch
        ++ " does not exist in waveform dictionary")
    else scanList pw ch (el + 1) rest

/-- The per-channel scan of check_sequence_consistency (ch is the
1-based channel counter). -/
def scanWf (pw : List (String × Packed)) :
    Nat → List (List String) → Except String Unit
  | _, [] => Except.ok ()
  | ch, l :: rest =>
    match scanList pw (ch + 1) 0 l with
    | Except.error e => Except.error e
    | Except.ok _ => scanWf pw (ch + 1) rest

/-- Pulsar.check_sequence_consistency: equal lengths of
wfname_l[0..3] and the four property lists (IndexError when fewer than
four channel lists exist), then every referenced waveform name must be a
key of the packed dict. -/
def check_sequence_consistency (pw : List (String × Packed))
    (wfl : List (List String)) (nrep wait goto jump : List Nat) :
    Except String Unit :=
  match wfl.get? 0, wfl.get? 1, wfl.get? 2, wfl.get? 3 with
  | some l0, some l1, some l2, some l3 =>
    if l0.length = l1.length ∧ l1.length = l2.length
        ∧ l2.length = l3.length ∧ l3.length = nrep.length
        ∧ nrep.length = wait.length ∧ wait.length = goto.length
        ∧ goto.length = jump.length then
      scanWf pw 0 wfl
    else
      Except.error "pulsar: sequence list of elements/properties has unequal length"
  | _, _, _, _ => Except.error "IndexError: list index out of range"

/-- The sequence-programming part of program_awg (everything after the
packing loop and the element-count ceiling): channel resolution, the
parallel lists, the loop policy, the jump-mode section, the optional
consistency check, then the single generate/send/load transfer and
channel activation.  The value is the cfg dict as passed to
generate_awg_file. -/
def awgSeqPart (p : Pulsar) (sequence : Sequence) (channels : ChanArg)
    (loop debug : Bool) (pw : List (String × Packed)) : Tr AwgSeqCfg :=
  match resolveChanIds p channels with
  | Except.error e => tfail e
  | Except.ok chan_ids =>
    let wfl := buildWfnameL chan_ids sequence
    match buildPropsLoop sequence sequence.elements with
    | Except.error e => tfail e
    | Except.ok (nrep, wait, goto, jump) =>
      match (if loop then setLastTo1 goto else Except.ok goto) with
      | Except.error e => tfail e
      | Except.ok goto2 =>
        match djumpPhaseAwg p sequence p.AWG_sequence_cfg with
        | Except.error e => tfail e
        | Except.ok cfg2 =>
          match (if debug then
                  check_sequence_consistency pw wfl nrep wait goto2 jump
                 else Except.ok ()) with
          | Except.error e => tfail e
          | Except.ok _ =>
            tbind (temit [Call.generate_awg_file pw wfl nrep wait goto2 jump
                            (get_awg_channel_cfg p) cfg2,
                          Call.send_awg_file (sequence.name ++ "_FILE.AWG"),
                          Call.load_awg_file (sequence.name ++ "_FILE.AWG")])
              fun _ =>
            tbind (temit (activate_channels p channels)) fun _ =>
            tpure cfg2

/-- Pulsar.program_awg: pack every element over the used channels, then
(after the point where the Python code reads the loop-local _t0, a
NameError when no element was passed) either soft-abort on more than
8000 sequence elements (plain return, no device file traffic) or run the
sequence-programming part. -/
def program_awg (p : Pulsar) (sequence : Sequence) (elements : List Element)
    (channels : ChanArg := ChanArg.all) (loop : Bool := true)
    (debug : Bool := false) : Tr AwgSeqCfg :=
  tbind (packPhase p channels (get_used_channel_ids p) elements [] [])
    fun pwnz =>
  if elements = [] then tfail "NameError: name _t0 is not defined"
  else if element_count sequence > 8000 then tpure p.AWG_sequence_cfg
  else awgSeqPart p sequence channels loop debug pwnz.1

/- ### State-passing wrappers (for the frame claim C8) -/

/-- program_sequence as a transformer of the (pulsar, sequence) pair:
the source assigns to no attribute of either object on this path. -/
def program_sequence_state (p : Pulsar) (seq : Sequence)
    (channels : ChanArg) (loop start : Bool) :
    (Pulsar × Sequence) × Tr Unit :=
  ((p, seq), program_sequence p seq channels loop start)

/-- program_awg as a transformer of the (pulsar, sequence) pair: on
success the AWG_sequence_cfg dict of the pulsar is replaced by the
mutated one; the sequence has no mutated attribute. -/
def program_awg_state (p : Pulsar) (seq : Sequence) (elements : List Element)
    (channels : ChanArg) (loop debug : Bool) :
    (Pulsar × Sequence) × Tr Unit :=
  let r := program_awg p seq elements channels loop debug
  match r.2 with
  | Except.ok cfg2 =>
    (({ p with AWG_sequence_cfg := cfg2 }, seq), (r.1, Except.ok ()))
  | Except.error e => ((p, seq), (r.1, Except.error e))

/- ### Trace observations -/

/-- Extractor for goto-state writes at a given 1-based index. -/
def gsOf (idx : Nat) : Call → Option String
  | Call.set_sqel_goto_state i v => if i = idx then some v else none
  | _ => none

/-- Extractor for goto-target writes at a given 1-based index. -/
def gtOf (idx : Nat) : Call → Option Nat
  | Call.set_sqel_goto_target_index i t => if i = idx then some t else none
  | _ => none

/-- The goto state of a sequencer slot after replaying a device trace:
the last written value (device registers are last-write-wins). -/
def gotoStateAt (tr : List Call) (idx : Nat) : Option String :=
  (tr.filterMap (gsOf idx)).getLast?

/-- The goto target of a sequencer slot after replaying a device trace. -/
def gotoTargetAt (tr : List Call) (idx : Nat) : Option Nat :=
  (tr.filterMap (gtOf idx)).getLast?

/-- Extractor for djump-table writes. -/
def djdOf : Call → Option (Nat × Nat)
  | Call.set_djump_def i v => some (i, v)
  | _ => none

/-- The djump-table writes of a trace, in order. -/
def djumpDefCalls (tr : List Call) : List (Nat × Nat) := tr.filterMap djdOf

/-- Extractor for the goto array handed to a generate_awg_file call. -/
def genGotoOf : Call → Option (List Nat)
  | Call.generate_awg_file _ _ _ _ g _ _ _ => some g
  | _ => none

/-- The goto arrays handed to generate_awg_file calls of a trace. -/
def genGotoLists (tr : List Call) : List (List Nat) :=
  tr.filterMap genGotoOf

/-- Recognizer for pack_waveform calls. -/
def isPackCall : Call → Bool
  | Call.pack_waveform _ _ _ => true
  | _ => false

/-- Recognizer for the file-level device calls of the batch strategy
(generation, transfer, load). -/
def isFileCall : Call → Bool
  | Call.generate_awg_file _ _ _ _ _ _ _ _ => true
  | Call.send_awg_file _ => true
  | Call.load_awg_file _ => true
  | _ => false

/-- Recognizer for the file-transfer call alone. -/
def isSendFile : Call → Bool
  | Call.send_awg_file _ => true
  | _ => false

/-- Recognizer for output-state calls. -/
def isStatusCall : Call → Bool
  | Call.set_status _ _ => true
  | _ => false

/-- Recognizer for the per-channel configuration calls of
setup_channels. -/
def isPlainCfgCall : Call → Bool
  | Call.set_status _ _ => true
  | Call.set_low _ _ => true
  | Call.set_high _ _ => true
  | Call.set_amplitude _ _ => true
  | Call.set_offset _ _ => true
  | _ => false

/-- Recognizer for jump-mode and djump-table calls. -/
def isJumpCfgCall : Call → Bool
  | Call.set_event_jump_mode _ => true
  | Call.set_djump_def _ _ => true
  | _ => false

/-- Recognizer for the per-element sequencer calls of the element
loop. -/
def isSqelCall : Call → Bool
  | Call.set_sqel_waveform _ _ _ => true
  | Call.set_sqel_loopcnt_to_inf _ _ => true
  | Call.set_sqel_loopcnt _ _ => true
  | Call.set_sqel_goto_state _ _ => true
  | Call.set_sqel_goto_target_index _ _ => true
  | Call.set_sqel_event_jump_type _ _ => true
  | Call.set_sqel_event_jump_target_index _ _ => true
  | Call.set_sqel_trigger_wait _ _ => true
  | _ => false

/- ### Packing-trace lemmas -/

theorem packIdLoop_all_pack (p : Pulsar) (channels : ChanArg) (e : Element) :
    ∀ (ids : List String) (pw : List (String × Packed)) (nz : List String),
      ((packIdLoop p channels e ids pw nz).1).all isPackCall = true := by
  intro ids
  induction ids with
  | nil => intro pw nz; rfl
  | cons id rest ih =>
    intro pw nz
    unfold packIdLoop
    cases huf : uploadFilter p channels id with
    | error er => simp [tfail]
    | ok b =>
      cases b with
      | false => simpa using ih pw nz
      | true =>
        cases hpo : packOne p e id with
        | error er => simp [tfail]
        | ok pr =>
          obtain ⟨pk, nzAdd⟩ := pr
          simp only [tbind, temit]
          simp [isPackCall, ih]

theorem packPhase_all_pack (p : Pulsar) (channels : ChanArg)
    (cids : List String) :
    ∀ (elems : List Element) (pw : List (String × Packed)) (nz : List String),
      ((packPhase p channels cids elems pw nz).1).all isPackCall = true := by
  intro elems
  induction elems with
  | nil => intro pw nz; rfl
  | cons e rest ih =>
    intro pw nz
    unfold packPhase
    rcases h : packIdLoop p channels e cids pw nz with ⟨cs, r⟩
    have hcs : cs.all isPackCall = true := by
      have h2 := packIdLoop_all_pack p channels e cids pw nz
      rw [h] at h2; exact h2
    cases r with
    | error er => simpa [tbind] using hcs
    | ok pwnz => simp [tbind, List.all_append, hcs, ih]

theorem pack_call_not_file (c : Call) (h : isPackCall c = true) :
    isFileCall c = false ∧ isSendFile c = false ∧ genGotoOf c = none := by
  cases c <;> first
    | exact ⟨rfl, rfl, rfl⟩
    | exact Bool.noConfusion h

theorem all_pack_no_file (tr : List Call) (h : tr.all isPackCall = true) :
    tr.all (fun c => !isFileCall c) = true
    ∧ tr.any isFileCall = false
    ∧ tr.any isSendFile = false
    ∧ genGotoLists tr = [] := by
  have hm : ∀ c ∈ tr, isPackCall c = true := List.all_eq_true.mp h
  refine ⟨?_, ?_, ?_, ?_⟩
  · exact List.all_eq_true.mpr
      (fun c hc => by simp [(pack_call_not_file c (hm c hc)).1])
  · exact List.any_eq_false.mpr
      (fun c hc => by simp [(pack_call_not_file c (hm c hc)).1])
  · exact List.any_eq_false.mpr
      (fun c hc => by simp [(pack_call_not_file c (hm c hc)).2.1])
  · exact List.filterMap_eq_nil_iff.mpr
      (fun c hc => (pack_call_not_file c (hm c hc)).2.2)

theorem awgSeqPart_error_or_file (p : Pulsar) (seq : Sequence)
    (channels : ChanArg) (loop debug : Bool) (pw : List (String × Packed)) :
    (∃ e, (awgSeqPart p seq channels loop debug pw).2 = Except.error e)
    ∨ (awgSeqPart p seq channels loop debug pw).1.any isFileCall = true := by
  unfold awgSeqPart
  cases hr : resolveChanIds p channels with
  | error e => exact Or.inl ⟨e, rfl⟩
  | ok chans =>
    dsimp only
    cases hbp : buildPropsLoop seq seq.elements with
    | error e => exact Or.inl ⟨e, rfl⟩
    | ok quad =>
      obtain ⟨nr, wt, gl, jl⟩ := quad
      dsimp only
      cases hsl : (if loop = true then setLastTo1 gl else Except.ok gl) with
      | error e => exact Or.inl ⟨e, rfl⟩
      | ok goto2 =>
        dsimp only
        cases hdj : djumpPhaseAwg p seq p.AWG_sequence_cfg with
        | error e => exact Or.inl ⟨e, rfl⟩
        | ok cfg2 =>
          dsimp only
          cases hck : (if debug = true then
              check_sequence_consistency pw (buildWfnameL chans seq)
                nr wt goto2 jl
            else Except.ok ()) with
          | error e => exact Or.inl ⟨e, rfl⟩
          | ok u =>
            right
            simp [tbind, temit, tpure, List.any_append, isFileCall]

/- ### C3 -/

/-- C3 (amended): provided the pre-check packing loop raises nothing and
at least one element is passed (with no element, the read of the
loop-local _t0 raises a NameError before the ceiling check), a sequence
of more than 8000 elements makes program_awg return normally with no
file-generation, file-send or file-load device call issued, while a
count of at most 8000 proceeds past the check (any run then either
raises or reaches the file-generation call). -/
theorem c3_soft_abort_over_8000
    (p : Pulsar) (seq : Sequence) (channels : ChanArg) (loop debug : Bool)
    (elements : List Element) (cs : List Call)
    (pw : List (String × Packed)) (nz : List String)
    (hne : elements ≠ [])
    (hpk : packPhase p channels (get_used_channel_ids p) elements [] []
      = (cs, Except.ok (pw, nz))) :
    (8000 < element_count seq →
      (program_awg p seq elements channels loop debug).2 =
        Except.ok p.AWG_sequence_cfg
      ∧ (program_awg p seq elements channels loop debug).1.all
          (fun c => !isFileCall c) = true)
    ∧ (element_count seq ≤ 8000 →
      (∃ e, (program_awg p seq elements channels loop debug).2 =
        Except.error e)
      ∨ (program_awg p seq elements channels loop debug).1.any
          isFileCall = true) := by
  have hcs : cs.all isPackCall = true := by
    have h2 := packPhase_all_pack p channels (get_used_channel_ids p)
      elements [] []
    rw [hpk] at h2; exact h2
  unfold program_awg
  rw [hpk]
  simp only [tbind]
  rw [if_neg hne]
  constructor
  · intro h8
    rw [if_pos h8]
    refine ⟨rfl, ?_⟩
    simpa [tpure] using (all_pack_no_file cs hcs).1
  · intro h8
    rw [if_neg (by omega)]
    rcases awgSeqPart_error_or_file p seq channels loop debug pw with
      ⟨e, he⟩ | hany
    · exact Or.inl ⟨e, by simpa using he⟩
    · exact Or.inr (by simp [List.any_append, hany])

theorem c3_count :
    element_count ⟨"big", List.replicate 8001 ⟨"e", "w", 1, none, none, false⟩,
      none⟩ = 8001 := by
  show (List.replicate 8001 (⟨"e", "w", 1, none, none, false⟩ :
    SeqElt)).length = 8001
  rw [List.length_replicate]

/-- C3 counterexample: program_awg invoked with no element on a
sequence of 8001 elements raises the NameError for the loop-local _t0
(read right after the never-entered packing loop, before the ceiling
check), instead of returning without raising as the claim states for
every invocation. -/
theorem c3_counterexample :
    element_count ⟨"big", List.replicate 8001 ⟨"e", "w", 1, none, none, false⟩,
        none⟩ = 8001
    ∧ (program_awg ⟨"regular", [], ⟨some 1, none, none⟩⟩
        ⟨"big", List.replicate 8001 ⟨"e", "w", 1, none, none, false⟩, none⟩
        [] ChanArg.all true false).2 =
        Except.error "NameError: name _t0 is not defined" := by
  exact ⟨c3_count, rfl⟩

/-- Witness for C3 on a concrete 8001-element sequence with one packed
element. -/
theorem c3_witness :
    ([⟨"e0", 2, []⟩] ≠ ([] : List Element))
    ∧ packPhase ⟨"regular", [], ⟨some 1, none, none⟩⟩ ChanArg.all
        (get_used_channel_ids ⟨"regular", [], ⟨some 1, none, none⟩⟩)
        [⟨"e0", 2, []⟩] [] [] = ([], Except.ok ([], []))
    ∧ (program_awg ⟨"regular", [], ⟨some 1, none, none⟩⟩
        ⟨"big", List.replicate 8001 ⟨"e", "w", 1, none, none, false⟩, none⟩
        [⟨"e0", 2, []⟩] ChanArg.all true false).2 =
        Except.ok (⟨"regular", [], ⟨some 1, none, none⟩⟩ :
          Pulsar).AWG_sequence_cfg
    ∧ (program_awg ⟨"regular", [], ⟨some 1, none, none⟩⟩
        ⟨"big", List.replicate 8001 ⟨"e", "w", 1, none, none, false⟩, none⟩
        [⟨"e0", 2, []⟩] ChanArg.all true false).1.all
        (fun c => !isFileCall c) = true := by
  refine ⟨List.cons_ne_nil _ _, rfl, ?_⟩
  exact (c3_soft_abort_over_8000 ⟨"regular", [], ⟨some 1, none, none⟩⟩
      ⟨"big", List.replicate 8001 ⟨"e", "w", 1, none, none, false⟩, none⟩
      ChanArg.all true false [⟨"e0", 2, []⟩] [] [] []
      (List.cons_ne_nil _ _) rfl).1 (by rw [c3_count]; norm_num)

/- ### Trace-shape lemmas -/

theorem tbind_trace_sub {α β : Type} (x : Tr α) (f : α → Tr β) :
    ∀ c ∈ (tbind x f).1, c ∈ x.1 ∨ ∃ a, x.2 = Except.ok a ∧ c ∈ (f a).1 := by
  rcases x with ⟨cs, r⟩
  cases r with
  | error e => intro c hc; exact Or.inl hc
  | ok a =>
    intro c hc
    rcases List.mem_append.mp hc with h | h
    · exact Or.inl h
    · exact Or.inr ⟨a, rfl, h⟩

theorem tlift_trace {α : Type} (o : Option α) (e : String) :
    (tlift o e).1 = [] := by
  cases o <;> rfl

theorem plain_cfg_extractors (c : Call) (h : isPlainCfgCall c = true)
    (idx : Nat) :
    gsOf idx c = none ∧ gtOf idx c = none ∧ djdOf c = none
    ∧ genGotoOf c = none := by
  cases c <;> first
    | exact ⟨rfl, rfl, rfl, rfl⟩
    | exact Bool.noConfusion h

theorem status_extractors (c : Call) (h : isStatusCall c = true)
    (idx : Nat) :
    gsOf idx c = none ∧ gtOf idx c = none ∧ djdOf c = none
    ∧ genGotoOf c = none := by
  cases c <;> first
    | exact ⟨rfl, rfl, rfl, rfl⟩
    | exact Bool.noConfusion h

theorem jumpcfg_extractors (c : Call) (h : isJumpCfgCall c = true)
    (idx : Nat) :
    gsOf idx c = none ∧ gtOf idx c = none ∧ genGotoOf c = none := by
  cases c <;> first
    | exact ⟨rfl, rfl, rfl⟩
    | exact Bool.noConfusion h

theorem sqel_extractors (c : Call) (h : isSqelCall c = true) :
    djdOf c = none ∧ genGotoOf c = none := by
  cases c <;> first
    | exact ⟨rfl, rfl⟩
    | exact Bool.noConfusion h

theorem setup_channels_plain (p : Pulsar) (o ru : Bool) :
    ∀ c ∈ setup_channels p o ru, isPlainCfgCall c = true := by
  intro c hc
  unfold setup_channels at hc
  rcases List.mem_append.mp hc with hc | hc
  · rcases List.mem_append.mp hc with hc | hc
    · obtain ⟨n, _, rfl⟩ := List.mem_map.mp hc
      rfl
    · cases ru with
      | false => simp at hc
      | true =>
        simp only [if_pos rfl] at hc
        obtain ⟨n, _, hc2⟩ := List.mem_flatMap.mp hc
        split at hc2 <;> simp at hc2 <;> rcases hc2 with rfl | rfl <;> rfl
  · obtain ⟨pr, _, hc2⟩ := List.mem_flatMap.mp hc
    rcases List.mem_append.mp hc2 with hc3 | hc3
    · split at hc3
      · simp at hc3; rcases hc3 with rfl | rfl <;> rfl
      · split at hc3
        · simp at hc3; rcases hc3 with rfl | rfl <;> rfl
        · simp at hc3
    · split at hc3
      · simp at hc3; subst hc3; rfl
      · simp at hc3

theorem activate_channels_status (p : Pulsar) (ch : ChanArg) :
    ∀ c ∈ activate_channels p ch, isStatusCall c = true := by
  intro c hc
  unfold activate_channels at hc
  obtain ⟨id, _, hc2⟩ := List.mem_flatMap.mp hc
  dsimp only at hc2
  split at hc2
  · simp at hc2; subst hc2; rfl
  · simp at hc2

theorem sqelChannelLoop_sqel (elt : SeqElt) (idx : Nat) :
    ∀ ids, ∀ c ∈ (sqelChannelLoop elt idx ids).1, isSqelCall c = true := by
  intro ids
  induction ids with
  | nil => intro c hc; cases hc
  | cons id rest ih =>
    intro c hc
    unfold sqelChannelLoop at hc
    cases h2 : pyIntAt2 id with
    | error e => rw [h2] at hc; cases hc
    | ok d =>
      rw [h2] at hc
      simp only [tbind, temit] at hc
      rcases List.mem_cons.mp hc with rfl | hc2
      · rfl
      · exact ih c (by simpa using hc2)

theorem perElt_sqel (seq : Sequence) (chanIds : List String) (idx : Nat)
    (elt : SeqElt) :
    ∀ c ∈ (perElt seq chanIds idx elt).1, isSqelCall c = true := by
  intro c hc
  unfold perElt at hc
  rcases tbind_trace_sub _ _ c hc with h | ⟨_, _, h⟩
  · exact sqelChannelLoop_sqel elt idx chanIds c h
  · rcases tbind_trace_sub _ _ c h with h2 | ⟨_, _, h2⟩
    · simp [temit] at h2; rcases h2 with rfl | rfl <;> rfl
    · rcases tbind_trace_sub _ _ c h2 with h3 | ⟨_, _, h3⟩
      · cases hg : elt.goto_target with
        | none => rw [hg] at h3; cases h3
        | some t =>
          rw [hg] at h3
          rcases tbind_trace_sub _ _ c h3 with h4 | ⟨_, _, h4⟩
          · simp [temit] at h4; subst h4; rfl
          · rcases tbind_trace_sub _ _ c h4 with h5 | ⟨ti, _, h5⟩
            · rw [tlift_trace] at h5; cases h5
            · simp [temit] at h5; subst h5; rfl
      · rcases tbind_trace_sub _ _ c h3 with h4 | ⟨_, _, h4⟩
        · cases hj : elt.jump_target with
          | none => rw [hj] at h4; cases h4
          | some t =>
            rw [hj] at h4
            rcases tbind_trace_sub _ _ c h4 with h5 | ⟨_, _, h5⟩
            · simp [temit] at h5; subst h5; rfl
            · rcases tbind_trace_sub _ _ c h5 with h6 | ⟨ti, _, h6⟩
              · rw [tlift_trace] at h6; cases h6
              · simp [temit] at h6; subst h6; rfl
        · cases htw : elt.trigger_wait with
          | false => rw [htw] at h4; cases h4
          | true =>
            rw [htw] at h4
            simp [temit] at h4; subst h4; rfl

theorem elementLoop_sqel (seq : Sequence) (chanIds : List String) :
    ∀ (l : List SeqElt) (i : Nat),
      ∀ c ∈ (elementLoop seq chanIds i l).1, isSqelCall c = true := by
  intro l
  induction l with
  | nil => intro i c hc; cases hc
  | cons elt rest ih =>
    intro i c hc
    unfold elementLoop at hc
    rcases tbind_trace_sub _ _ c hc with h | ⟨_, _, h⟩
    · exact perElt_sqel seq chanIds (i + 1) elt c h
    · rcases tbind_trace_sub _ _ c h with h2 | ⟨_, _, h2⟩
      · exact ih (i + 1) c h2
      · cases h2

theorem djumpWriteLoop_jumpcfg (seq : Sequence) :
    ∀ tbl, ∀ c ∈ (djumpWriteLoop seq tbl).1, isJumpCfgCall c = true := by
  intro tbl
  induction tbl with
  | nil => intro c hc; cases hc
  | cons pr rest ih =>
    intro c hc
    obtain ⟨i, nm⟩ := pr
    unfold djumpWriteLoop at hc
    rcases tbind_trace_sub _ _ c hc with h | ⟨ti, _, h⟩
    · rw [tlift_trace] at h; cases h
    · rcases tbind_trace_sub _ _ c h with h2 | ⟨_, _, h2⟩
      · simp [temit] at h2; subst h2; rfl
      · exact ih c h2

theorem djumpPhaseSeq_jumpcfg (p : Pulsar) (seq : Sequence) :
    ∀ c ∈ (djumpPhaseSeq p seq).1, isJumpCfgCall c = true := by
  intro c hc
  unfold djumpPhaseSeq at hc
  split at hc
  · cases hc
  · split at hc
    · cases hdt : seq.djump_table with
      | none => rw [hdt] at hc; simp [temit] at hc; subst hc; rfl
      | some tbl =>
        rw [hdt] at hc
        rcases tbind_trace_sub _ _ c hc with h | ⟨_, _, h⟩
        · simp [temit] at h; subst h; rfl
        · rcases tbind_trace_sub _ _ c h with h2 | ⟨_, _, h2⟩
          · simp [temit] at h2
            obtain ⟨i, _, rfl⟩ := h2
            rfl
          · exact djumpWriteLoop_jumpcfg seq tbl c h2
    · cases hc

/- ### Success-path inversion lemmas -/

theorem elementLoop_ok_last (seq : Sequence) (cids : List String) :
    ∀ (l : List SeqElt) (i : Nat) (ec : List Call) (li : Option Nat),
      elementLoop seq cids i l = (ec, Except.ok li) →
      li = (if l = [] then none else some (i + l.length)) := by
  intro l
  induction l with
  | nil =>
    intro i ec li h
    simp only [elementLoop, tpure] at h
    injection h with h1 h2
    injection h2 with h3
    simp [← h3]
  | cons elt rest ih =>
    intro i ec li h
    unfold elementLoop at h
    rcases hpe : perElt seq cids (i + 1) elt with ⟨pc, pr⟩
    rw [hpe] at h
    cases pr with
    | error e =>
      simp only [tbind] at h
      injection h with h1 h2
      exact Except.noConfusion h2
    | ok u =>
      rcases hrec : elementLoop seq cids (i + 1) rest with ⟨rc, rr⟩
      rw [hrec] at h
      cases rr with
      | error e =>
        simp only [tbind] at h
        injection h with h1 h2
        exact Except.noConfusion h2
      | ok r =>
        simp only [tbind, tpure] at h
        injection h with h1 h2
        injection h2 with h3
        have hr2 := ih (i + 1) rc r hrec
        rw [if_neg (List.cons_ne_nil elt rest)]
        rw [← h3]
        by_cases hrest : rest = []
        · subst hrest
          rw [if_pos rfl] at hr2
          subst hr2
          simp
        · rw [if_neg hrest] at hr2
          subst hr2
          simp only [Option.getD_some, Option.some.injEq, List.length_cons]
          omega

theorem program_sequence_shape (p : Pulsar) (seq : Sequence)
    (channels : ChanArg) (loop start : Bool) (cids : List String) (jt : Int)
    (ec : List Call) (li : Option Nat) (fT : List Call)
    (hr : resolveChanIds p channels = Except.ok cids)
    (hjt : p.AWG_sequence_cfg.jump_timing = some jt)
    (hel : elementLoop seq cids 0 seq.elements = (ec, Except.ok li))
    (hf : forceStep loop li = (fT, Except.ok ())) :
    program_sequence p seq channels loop start =
      ([Call.stop, Call.set_runmode "SEQ",
        Call.set_event_jump_timing (if jt = 1 then "SYNC" else "ASYNC")]
        ++ setup_channels p
        ++ ([Call.set_sq_length 0, Call.set_sq_length (element_count seq)]
        ++ (ec ++ (fT ++ (activate_channels p channels
        ++ ((djumpPhaseSeq p seq).1
        ++ (match (djumpPhaseSeq p seq).2 with
            | Except.ok _ => if start then [Call.start] else []
            | Except.error _ => [])))))),
       match (djumpPhaseSeq p seq).2 with
       | Except.ok _ => Except.ok ()
       | Except.error e => Except.error e) := by
  unfold program_sequence
  rw [hr]
  dsimp only
  rcases hd : djumpPhaseSeq p seq with ⟨dc, dr⟩
  cases dr with
  | error e =>
    cases start <;>
      simp [jumpTimingStep, hjt, tbind, temit, tpure, tfail, hel, hf, hd,
        List.append_assoc]
  | ok u =>
    cases start <;>
      simp [jumpTimingStep, hjt, tbind, temit, tpure, tfail, hel, hf, hd,
        List.append_assoc]

theorem buildProps_len (seq : Sequence) :
    ∀ (l : List SeqElt) (nr wt gl jl : List Nat),
      buildPropsLoop seq l = Except.ok (nr, wt, gl, jl) →
      nr.length = l.length ∧ wt.length = l.length
      ∧ gl.length = l.length ∧ jl.length = l.length := by
  intro l
  induction l with
  | nil =>
    intro nr wt gl jl h
    simp only [buildPropsLoop] at h
    injection h with h1
    injection h1 with h2 h3
    injection h3 with h4 h5
    injection h5 with h6 h7
    simp [← h2, ← h4, ← h6, ← h7]
  | cons elt rest ih =>
    intro nr wt gl jl h
    unfold buildPropsLoop at h
    cases hg : targetIndex seq elt.goto_target with
    | error e => rw [hg] at h; cases h
    | ok g =>
      rw [hg] at h
      cases hj : targetIndex seq elt.jump_target with
      | error e => rw [hj] at h; cases h
      | ok j =>
        rw [hj] at h
        cases hrec : buildPropsLoop seq rest with
        | error e => rw [hrec] at h; cases h
        | ok quad =>
          obtain ⟨nr2, wt2, gl2, jl2⟩ := quad
          rw [hrec] at h
          dsimp only at h
          injection h with h1
          injection h1 with h2 h3
          injection h3 with h4 h5
          injection h5 with h6 h7
          obtain ⟨e1, e2, e3, e4⟩ := ih nr2 wt2 gl2 jl2 hrec
          subst h2 h4 h6 h7
          simp [e1, e2, e3, e4]

theorem setLastTo1_ok :
    ∀ (l l2 : List Nat), setLastTo1 l = Except.ok l2 →
      l ≠ [] ∧ l2 = l.dropLast ++ [1]
      ∧ l2.getLast? = some 1 ∧ l2.length = l.length := by
  intro l l2 h
  cases l with
  | nil => cases h
  | cons a rest =>
    simp only [setLastTo1] at h
    injection h with h1
    refine ⟨List.cons_ne_nil a rest, h1.symm, ?_, ?_⟩
    · rw [← h1, List.getLast?_concat]
    · rw [← h1]
      simp [List.length_dropLast]

theorem awgSeqPart_ok_inv (p : Pulsar) (seq : Sequence) (channels : ChanArg)
    (loop debug : Bool) (pw : List (String × Packed)) (tr : List Call)
    (cfg : AwgSeqCfg)
    (h : awgSeqPart p seq channels loop debug pw = (tr, Except.ok cfg)) :
    ∃ cids nrep wait goto jump goto2,
      resolveChanIds p channels = Except.ok cids
      ∧ buildPropsLoop seq seq.elements = Except.ok (nrep, wait, goto, jump)
      ∧ (if loop = true then setLastTo1 goto else Except.ok goto) =
          Except.ok goto2
      ∧ djumpPhaseAwg p seq p.AWG_sequence_cfg = Except.ok cfg
      ∧ tr = Call.generate_awg_file pw (buildWfnameL cids seq) nrep wait
            goto2 jump (get_awg_channel_cfg p) cfg
          :: Call.send_awg_file (seq.name ++ "_FILE.AWG")
          :: Call.load_awg_file (seq.name ++ "_FILE.AWG")
          :: activate_channels p channels := by
  unfold awgSeqPart at h
  cases hr : resolveChanIds p channels with
  | error e => rw [hr] at h; cases h
  | ok cids =>
    rw [hr] at h
    dsimp only at h
    cases hbp : buildPropsLoop seq seq.elements with
    | error e => rw [hbp] at h; cases h
    | ok quad =>
      obtain ⟨nr, wt, gl, jl⟩ := quad
      rw [hbp] at h
      dsimp only at h
      cases hsl : (if loop = true then setLastTo1 gl else Except.ok gl) with
      | error e => rw [hsl] at h; cases h
      | ok goto2 =>
        rw [hsl] at h
        dsimp only at h
        cases hdj : djumpPhaseAwg p seq p.AWG_sequence_cfg with
        | error e => rw [hdj] at h; cases h
        | ok cfg2 =>
          rw [hdj] at h
          dsimp only at h
          cases hck : (if debug = true then
              check_sequence_consistency pw (buildWfnameL cids seq)
                nr wt goto2 jl
            else Except.ok ()) with
          | error e => rw [hck] at h; cases h
          | ok u =>
            rw [hck] at h
            simp only [tbind, temit, tpure, List.append_nil,
              List.nil_append] at h
            injection h with h1 h2
            injection h2 with h3
            subst h3
            exact ⟨cids, nr, wt, gl, jl, goto2, rfl, rfl, hsl, rfl,
              by rw [← h1]; simp⟩

/- ### C1 -/

theorem genGotoLists_append (a b : List Call) :
    genGotoLists (a ++ b) = genGotoLists a ++ genGotoLists b := by
  unfold genGotoLists
  exact List.filterMap_append a b genGotoOf

/-- C1: with loop=True requested on a non-empty sequence, the final
element ends up with goto forced on and resolved target index 1 in both
strategies.  Incremental strategy: replaying the issued device trace,
the last written goto state of the final (1-based) slot is enabled and
its last written goto target is 1, whatever gotoTarget the element
carries (the forcing writes come after the per-element writes).  Batch
strategy: every successful run hands generate_awg_file exactly one goto
array, of the sequence length, whose last entry is 1. -/
theorem c1_loop_forces_goto_one
    (p : Pulsar) (seq : Sequence) (channels : ChanArg) (start : Bool)
    (elements : List Element) (debug : Bool)
    (hne : seq.elements ≠ []) :
    (∀ cids jt ec li,
      resolveChanIds p channels = Except.ok cids →
      p.AWG_sequence_cfg.jump_timing = some jt →
      elementLoop seq cids 0 seq.elements = (ec, Except.ok li) →
      gotoStateAt (program_sequence p seq channels true start).1
          seq.elements.length = some "1"
      ∧ gotoTargetAt (program_sequence p seq channels true start).1
          seq.elements.length = some 1)
    ∧ (∀ tr cfg,
      program_awg p seq elements channels true debug = (tr, Except.ok cfg) →
      element_count seq ≤ 8000 →
      ∃ g, genGotoLists tr = [g] ∧ g.getLast? = some 1
        ∧ g.length = element_count seq) := by
  constructor
  · intro cids jt ec li hr hjt hel
    have hli : li = some seq.elements.length := by
      have h2 := elementLoop_ok_last seq cids seq.elements 0 ec li hel
      rw [if_neg hne] at h2
      simpa using h2
    subst hli
    have hf : forceStep true (some seq.elements.length) =
        ([Call.set_sqel_goto_state seq.elements.length "1",
          Call.set_sqel_goto_target_index seq.elements.length 1],
         Except.ok ()) := rfl
    rw [program_sequence_shape p seq channels true start cids jt ec _ _
      hr hjt hel hf]
    have hsu1 : (setup_channels p).filterMap (gsOf seq.elements.length)
        = [] :=
      List.filterMap_eq_nil_iff.mpr (fun c hc =>
        (plain_cfg_extractors c (setup_channels_plain p false true c hc)
          seq.elements.length).1)
    have hsu2 : (setup_channels p).filterMap (gtOf seq.elements.length)
        = [] :=
      List.filterMap_eq_nil_iff.mpr (fun c hc =>
        (plain_cfg_extractors c (setup_channels_plain p false true c hc)
          seq.elements.length).2.1)
    have hac1 : (activate_channels p channels).filterMap
        (gsOf seq.elements.length) = [] :=
      List.filterMap_eq_nil_iff.mpr (fun c hc =>
        (status_extractors c (activate_channels_status p channels c hc)
          seq.elements.length).1)
    have hac2 : (activate_channels p channels).filterMap
        (gtOf seq.elements.length) = [] :=
      List.filterMap_eq_nil_iff.mpr (fun c hc =>
        (status_extractors c (activate_channels_status p channels c hc)
          seq.elements.length).2.1)
    have hdj1 : (djumpPhaseSeq p seq).1.filterMap
        (gsOf seq.elements.length) = [] :=
      List.filterMap_eq_nil_iff.mpr (fun c hc =>
        (jumpcfg_extractors c (djumpPhaseSeq_jumpcfg p seq c hc)
          seq.elements.length).1)
    have hdj2 : (djumpPhaseSeq p seq).1.filterMap
        (gtOf seq.elements.length) = [] :=
      List.filterMap_eq_nil_iff.mpr (fun c hc =>
        (jumpcfg_extractors c (djumpPhaseSeq_jumpcfg p seq c hc)
          seq.elements.length).2.1)
    have htail1 : (match (djumpPhaseSeq p seq).2 with
        | Except.ok _ => if start then [Call.start] else []
        | Except.error _ => ([] : List Call)).filterMap
          (gsOf seq.elements.length) = [] := by
      cases (djumpPhaseSeq p seq).2 <;> cases start <;>
        simp [show gsOf seq.elements.length Call.start = none from rfl]
    have htail2 : (match (djumpPhaseSeq p seq).2 with
        | Except.ok _ => if start then [Call.start] else []
        | Except.error _ => ([] : List Call)).filterMap
          (gtOf seq.elements.length) = [] := by
      cases (djumpPhaseSeq p seq).2 <;> cases start <;>
        simp [show gtOf seq.elements.length Call.start = none from rfl]
    constructor
    · unfold gotoStateAt
      simp only [List.filterMap_append, List.filterMap_cons, hsu1, hac1,
        hdj1, htail1,
        show gsOf seq.elements.length Call.stop = none from rfl,
        show gsOf seq.elements.length (Call.set_runmode "SEQ") = none
          from rfl,
        show ∀ m, gsOf seq.elements.length
          (Call.set_event_jump_timing m) = none from fun m => rfl,
        show ∀ k, gsOf seq.elements.length (Call.set_sq_length k) = none
          from fun k => rfl,
        show ∀ t, gsOf seq.elements.length
          (Call.set_sqel_goto_target_index seq.elements.length t) = none
          from fun t => rfl,
        show gsOf seq.elements.length
          (Call.set_sqel_goto_state seq.elements.length "1") = some "1"
          from by simp [gsOf]]
      simp [List.getLast?_concat]
    · unfold gotoTargetAt
      simp only [List.filterMap_append, List.filterMap_cons, hsu2, hac2,
        hdj2, htail2,
        show gtOf seq.elements.length Call.stop = none from rfl,
        show gtOf seq.elements.length (Call.set_runmode "SEQ") = none
          from rfl,
        show ∀ m, gtOf seq.elements.length
          (Call.set_event_jump_timing m) = none from fun m => rfl,
        show ∀ k, gtOf seq.elements.length (Call.set_sq_length k) = none
          from fun k => rfl,
        show ∀ v, gtOf seq.elements.length
          (Call.set_sqel_goto_state seq.elements.length v) = none
          from fun v => rfl,
        show gtOf seq.elements.length
          (Call.set_sqel_goto_target_index seq.elements.length 1) = some 1
          from by simp [gtOf]]
      simp [List.getLast?_concat]
  · intro tr cfg h h8
    unfold program_awg at h
    rcases hp : packPhase p channels (get_used_channel_ids p) elements [] []
      with ⟨cs, r⟩
    rw [hp] at h
    cases r with
    | error e =>
      simp only [tbind] at h
      injection h with h1 h2
      exact Except.noConfusion h2
    | ok pwnz =>
      obtain ⟨pw, nz⟩ := pwnz
      simp only [tbind] at h
      by_cases hnee : elements = []
      · rw [if_pos hnee] at h
        injection h with h1 h2
        exact Except.noConfusion h2
      · rw [if_neg hnee, if_neg (by omega)] at h
        rcases hq : awgSeqPart p seq channels true debug pw with ⟨t2, r2⟩
        rw [hq] at h
        injection h with h1 h2
        subst h1
        dsimp only at h2 ⊢
        rw [h2] at hq
        obtain ⟨cids, nrep, wait, gl, jl, goto2, hres, hbp, hsl, hdjp, htr⟩ :=
          awgSeqPart_ok_inv p seq channels true debug pw t2 cfg hq
        rw [if_pos rfl] at hsl
        obtain ⟨hglne, hg2, hlast, hlen⟩ := setLastTo1_ok gl goto2 hsl
        obtain ⟨_, _, hglen, _⟩ :=
          buildProps_len seq seq.elements nrep wait gl jl hbp
        have hcs : cs.all isPackCall = true := by
          have h3 := packPhase_all_pack p channels (get_used_channel_ids p)
            elements [] []
          rw [hp] at h3; exact h3
        have hact : genGotoLists (activate_channels p channels) = [] :=
          List.filterMap_eq_nil_iff.mpr (fun c hc =>
            (status_extractors c (activate_channels_status p channels c hc)
              0).2.2.2)
        refine ⟨goto2, ?_, hlast, by rw [hlen, hglen]; rfl⟩
        rw [genGotoLists_append, (all_pack_no_file cs hcs).2.2.2, htr]
        unfold genGotoLists
        simp only [List.filterMap_cons,
          show ∀ pw2 wfl nrep2 wait2 jump2 ccfg scfg, genGotoOf
            (Call.generate_awg_file pw2 wfl nrep2 wait2 goto2 jump2
              ccfg scfg) = some goto2 from fun _ _ _ _ _ _ _ => rfl,
          show ∀ fn, genGotoOf (Call.send_awg_file fn) = none
            from fun _ => rfl,
          show ∀ fn, genGotoOf (Call.load_awg_file fn) = none
            from fun _ => rfl]
        rw [show (activate_channels p channels).filterMap genGotoOf =
          genGotoLists (activate_channels p channels) from rfl, hact]
        rfl

/-- Concrete pulsar for the C1 witness run: one active analog channel
on ch1 and a configured cfg dict. -/
def c1p : Pulsar :=
  ⟨"regular", [("A", ⟨"ch1", "analog", 0, 0, 2, -2, true, 0⟩)],
   ⟨some 1, none, none⟩⟩

/-- Concrete one-element sequence for the C1 witness run. -/
def c1seq : Sequence := ⟨"s1", [⟨"el1", "w", 1, none, none, false⟩], none⟩

/-- Concrete element for the C1 witness run. -/
def c1elt : Element := ⟨"w", 2, [("A", [0, 1])]⟩

/-- Witness for C1 at a concrete one-element sequence, both
strategies. -/
theorem c1_witness :
    c1seq.elements ≠ []
    ∧ (gotoStateAt (program_sequence c1p c1seq ChanArg.all true false).1 1
        = some "1"
      ∧ gotoTargetAt (program_sequence c1p c1seq ChanArg.all true false).1 1
        = some 1)
    ∧ (∃ g, genGotoLists
          ((program_awg c1p c1seq [c1elt] ChanArg.all true false).1) = [g]
        ∧ g.getLast? = some 1 ∧ g.length = element_count c1seq) := by
  refine ⟨List.cons_ne_nil _ _, ?_, ?_⟩
  · exact (c1_loop_forces_goto_one c1p c1seq ChanArg.all false [c1elt] false
      (List.cons_ne_nil _ _)).1 ["ch1"] 1
      (elementLoop c1seq ["ch1"] 0 c1seq.elements).1 (some 1) rfl rfl rfl
  · exact (c1_loop_forces_goto_one c1p c1seq ChanArg.all false [c1elt] false
      (List.cons_ne_nil _ _)).2
      (program_awg c1p c1seq [c1elt] ChanArg.all true false).1
      ⟨some 1, none, none⟩ rfl (by decide)

/- ### C2 -/

theorem scanList_error_of_missing (pw : List (String × Packed)) (ch : Nat) :
    ∀ (l : List String) (el : Nat), (∃ n ∈ l, pyDictGet pw n = none) →
      ∃ e, scanList pw ch el l = Except.error e := by
  intro l
  induction l with
  | nil => rintro el ⟨n, hn, _⟩; cases hn
  | cons n0 rest ih =>
    rintro el ⟨n, hn, hmiss⟩
    unfold scanList
    by_cases h0 : (pyDictGet pw n0).isNone = true
    · rw [if_pos h0]; exact ⟨_, rfl⟩
    · rw [if_neg h0]
      apply ih
      rcases List.mem_cons.mp hn with h | h
      · rw [h] at hmiss
        exact absurd (by simp [hmiss]) h0
      · exact ⟨n, h, hmiss⟩

theorem scanList_ok_no_missing (pw : List (String × Packed)) (ch : Nat) :
    ∀ (l : List String) (el : Nat) (u : Unit),
      scanList pw ch el l = Except.ok u →
      ∀ n ∈ l, pyDictGet pw n ≠ none := by
  intro l
  induction l with
  | nil => intro el u h n hn; cases hn
  | cons n0 rest ih =>
    intro el u h n hn
    unfold scanList at h
    by_cases h0 : (pyDictGet pw n0).isNone = true
    · rw [if_pos h0] at h; cases h
    · rw [if_neg h0] at h
      rcases List.mem_cons.mp hn with he | he
      · intro hcontr
        rw [he] at hcontr
        exact h0 (by simp [hcontr])
      · exact ih (el + 1) u h n he

theorem scanWf_error_of_missing (pw : List (String × Packed)) :
    ∀ (wfl : List (List String)) (ch : Nat),
      (∃ l ∈ wfl, ∃ n ∈ l, pyDictGet pw n = none) →
      ∃ e, scanWf pw ch wfl = Except.error e := by
  intro wfl
  induction wfl with
  | nil => rintro ch ⟨l, hl, _⟩; cases hl
  | cons l0 rest ih =>
    rintro ch ⟨l, hl, hn⟩
    unfold scanWf
    cases hs : scanList pw (ch + 1) 0 l0 with
    | error e => exact ⟨e, rfl⟩
    | ok u =>
      rcases List.mem_cons.mp hl with he | he
      · obtain ⟨n, hnl, hmiss⟩ := hn
        rw [he] at hnl
        exact absurd hmiss (scanList_ok_no_missing pw (ch + 1) l0 0 u hs n hnl)
      · exact ih (ch + 1) ⟨l, he, hn⟩

theorem check_error_of_missing (pw : List (String × Packed))
    (wfl : List (List String)) (nrep wait goto jump : List Nat)
    (hmiss : ∃ l ∈ wfl, ∃ n ∈ l, pyDictGet pw n = none) :
    ∃ e, check_sequence_consistency pw wfl nrep wait goto jump =
      Except.error e := by
  unfold check_sequence_consistency
  repeat' split
  all_goals first
    | exact scanWf_error_of_missing pw wfl 0 hmiss
    | exact ⟨_, rfl⟩

theorem awgSeqPart_debug_missing (p : Pulsar) (seq : Sequence)
    (channels : ChanArg) (loop : Bool) (pw : List (String × Packed))
    (cids : List String)
    (hr : resolveChanIds p channels = Except.ok cids)
    (hmiss : ∃ l ∈ buildWfnameL cids seq, ∃ n ∈ l, pyDictGet pw n = none) :
    (∃ e, (awgSeqPart p seq channels loop true pw).2 = Except.error e)
    ∧ (awgSeqPart p seq channels loop true pw).1 = [] := by
  unfold awgSeqPart
  rw [hr]
  dsimp only
  cases hbp : buildPropsLoop seq seq.elements with
  | error e => exact ⟨⟨e, rfl⟩, rfl⟩
  | ok quad =>
    obtain ⟨nr, wt, gl, jl⟩ := quad
    dsimp only
    cases hsl : (if loop = true then setLastTo1 gl else Except.ok gl) with
    | error e => exact ⟨⟨e, rfl⟩, rfl⟩
    | ok goto2 =>
      dsimp only
      cases hdj : djumpPhaseAwg p seq p.AWG_sequence_cfg with
      | error e => exact ⟨⟨e, rfl⟩, rfl⟩
      | ok cfg2 =>
        dsimp only
        rw [if_pos rfl]
        obtain ⟨e, he⟩ := check_error_of_missing pw (buildWfnameL cids seq)
          nr wt goto2 jl hmiss
        rw [he]
        exact ⟨⟨e, rfl⟩, rfl⟩

/-- C2 (amended): only when the consistency check is requested
(debug=True) does a dangling waveform-name reference abort the batch
strategy: under the stated reach conditions the operation raises and
issues no file-generation, file-send or file-load call (only the
already-issued in-memory pack_waveform calls); with debug=False (the
default) the file is generated and sent despite the dangling
reference. -/
theorem c2_missing_name_aborts_before_send
    (p : Pulsar) (seq : Sequence) (channels : ChanArg) (loop : Bool)
    (elements : List Element) (cs : List Call)
    (pw : List (String × Packed)) (nz : List String) (cids : List String)
    (hpk : packPhase p channels (get_used_channel_ids p) elements [] []
      = (cs, Except.ok (pw, nz)))
    (h8 : element_count seq ≤ 8000)
    (hr : resolveChanIds p channels = Except.ok cids)
    (hmiss : ∃ l ∈ buildWfnameL cids seq, ∃ n ∈ l, pyDictGet pw n = none) :
    (∃ e, (program_awg p seq elements channels loop true).2 = Except.error e)
    ∧ (program_awg p seq elements channels loop true).1.any
        isSendFile = false
    ∧ (program_awg p seq elements channels loop true).1.any
        isFileCall = false := by
  have hcs : cs.all isPackCall = true := by
    have h2 := packPhase_all_pack p channels (get_used_channel_ids p)
      elements [] []
    rw [hpk] at h2; exact h2
  have hnf := all_pack_no_file cs hcs
  unfold program_awg
  rw [hpk]
  simp only [tbind]
  by_cases hne : elements = []
  · rw [if_pos hne]
    exact ⟨⟨_, rfl⟩, by simpa [tfail] using hnf.2.2.1,
      by simpa [tfail] using hnf.2.1⟩
  · rw [if_neg hne, if_neg (by omega)]
    obtain ⟨⟨e, he⟩, htr⟩ := awgSeqPart_debug_missing p seq channels loop
      pw cids hr hmiss
    refine ⟨⟨e, by simpa using he⟩, ?_, ?_⟩
    · simpa [htr] using hnf.2.2.1
    · simpa [htr] using hnf.2.1

/-- C2 counterexample: with debug=False (the default) and a sequence
element whose waveform name is absent from the packed-waveform dict, the
batch strategy raises nothing: the generate call carries the dangling
reference and the file is sent and loaded anyway. -/
theorem c2_counterexample :
    (program_awg ⟨"regular", [("A", ⟨"ch1", "analog", 0, 0, 2, -2, true, 0⟩)],
        ⟨some 1, none, none⟩⟩
      ⟨"s2", [⟨"el1", "bogus", 1, none, none, false⟩], none⟩
      [⟨"e1", 2, [("A", [0, 1])]⟩] ChanArg.all false false).2 =
      Except.ok ⟨some 1, none, none⟩
    ∧ (program_awg ⟨"regular", [("A", ⟨"ch1", "analog", 0, 0, 2, -2, true, 0⟩)],
        ⟨some 1, none, none⟩⟩
      ⟨"s2", [⟨"el1", "bogus", 1, none, none, false⟩], none⟩
      [⟨"e1", 2, [("A", [0, 1])]⟩] ChanArg.all false false).1.any
        isSendFile = true
    ∧ pyDictGet [("e1_ch1", (⟨[0, 1], [0, 0], [0, 0]⟩ : Packed))]
        "bogus_ch1" = none
    ∧ Call.generate_awg_file [("e1_ch1", ⟨[0, 1], [0, 0], [0, 0]⟩)]
        [["bogus_ch1"]] [1] [0] [0] [0]
        (get_awg_channel_cfg ⟨"regular",
          [("A", ⟨"ch1", "analog", 0, 0, 2, -2, true, 0⟩)],
          ⟨some 1, none, none⟩⟩)
        ⟨some 1, none, none⟩
      ∈ (program_awg ⟨"regular",
          [("A", ⟨"ch1", "analog", 0, 0, 2, -2, true, 0⟩)],
          ⟨some 1, none, none⟩⟩
        ⟨"s2", [⟨"el1", "bogus", 1, none, none, false⟩], none⟩
        [⟨"e1", 2, [("A", [0, 1])]⟩] ChanArg.all false false).1 := by
  exact ⟨rfl, rfl, rfl, List.Mem.tail _ (List.Mem.head _)⟩

/-- Witness for C2 at the same concrete run with debug=True. -/
theorem c2_witness :
    packPhase ⟨"regular", [("A", ⟨"ch1", "analog", 0, 0, 2, -2, true, 0⟩)],
        ⟨some 1, none, none⟩⟩ ChanArg.all
      (get_used_channel_ids ⟨"regular",
        [("A", ⟨"ch1", "analog", 0, 0, 2, -2, true, 0⟩)],
        ⟨some 1, none, none⟩⟩)
      [⟨"e1", 2, [("A", [0, 1])]⟩] [] []
      = ([Call.pack_waveform [0, 1] [0, 0] [0, 0]],
         Except.ok ([("e1_ch1", ⟨[0, 1], [0, 0], [0, 0]⟩)], []))
    ∧ ((∃ e, (program_awg ⟨"regular",
          [("A", ⟨"ch1", "analog", 0, 0, 2, -2, true, 0⟩)],
          ⟨some 1, none, none⟩⟩
        ⟨"s2", [⟨"el1", "bogus", 1, none, none, false⟩], none⟩
        [⟨"e1", 2, [("A", [0, 1])]⟩] ChanArg.all false true).2 =
          Except.error e)
      ∧ (program_awg ⟨"regular",
          [("A", ⟨"ch1", "analog", 0, 0, 2, -2, true, 0⟩)],
          ⟨some 1, none, none⟩⟩
        ⟨"s2", [⟨"el1", "bogus", 1, none, none, false⟩], none⟩
        [⟨"e1", 2, [("A", [0, 1])]⟩] ChanArg.all false true).1.any
          isSendFile = false
      ∧ (program_awg ⟨"regular",
          [("A", ⟨"ch1", "analog", 0, 0, 2, -2, true, 0⟩)],
          ⟨some 1, none, none⟩⟩
        ⟨"s2", [⟨"el1", "bogus", 1, none, none, false⟩], none⟩
        [⟨"e1", 2, [("A", [0, 1])]⟩] ChanArg.all false true).1.any
          isFileCall = false) := by
  refine ⟨rfl, ?_⟩
  exact c2_missing_name_aborts_before_send
    ⟨"regular", [("A", ⟨"ch1", "analog", 0, 0, 2, -2, true, 0⟩)],
      ⟨some 1, none, none⟩⟩
    ⟨"s2", [⟨"el1", "bogus", 1, none, none, false⟩], none⟩
    ChanArg.all false [⟨"e1", 2, [("A", [0, 1])]⟩]
    [Call.pack_waveform [0, 1] [0, 0] [0, 0]]
    [("e1_ch1", ⟨[0, 1], [0, 0], [0, 0]⟩)] [] ["ch1"]
    rfl (by decide) rfl
    ⟨["bogus_ch1"], by decide, "bogus_ch1", by decide, rfl⟩

/- ### C6 -/

theorem djumpWriteLoop_ok (seq : Sequence) :
    ∀ tbl, (∀ pr ∈ tbl, (element_index seq pr.2).isSome = true) →
      djumpWriteLoop seq tbl =
        (tbl.map (fun pr => Call.set_djump_def pr.1
          ((element_index seq pr.2).getD 0)), Except.ok ()) := by
  intro tbl
  induction tbl with
  | nil => intro _; rfl
  | cons pr rest ih =>
    intro hres
    obtain ⟨i, nm⟩ := pr
    unfold djumpWriteLoop
    have h1 := hres (i, nm) (List.mem_cons_self _ _)
    cases he : element_index seq nm with
    | none => rw [he] at h1; cases h1
    | some ti =>
      have ih2 := ih (fun q hq => hres q (List.mem_cons_of_mem _ hq))
      simp [tlift, tbind, tpure, temit, ih2, he]

theorem djumpPhaseSeq_unsupported (p : Pulsar) (seq : Sequence)
    (tbl : List (Nat × String)) (hdt : seq.djump_table = some tbl)
    (hty : p.AWG_type ≠ "opt09") :
    djumpPhaseSeq p seq =
      ([], Except.error "The AWG configured does not support dynamic jumping")
    := by
  unfold djumpPhaseSeq
  rw [hdt, if_pos ⟨by simp, by simpa using hty⟩]
  rfl

theorem djumpPhaseSeq_djum (p : Pulsar) (seq : Sequence)
    (tbl : List (Nat × String))
    (hty : p.AWG_type = "opt09") (hdt : seq.djump_table = some tbl)
    (hres : ∀ pr ∈ tbl, (element_index seq pr.2).isSome = true) :
    djumpPhaseSeq p seq =
      (Call.set_event_jump_mode "DJUM"
        :: ((List.range 16).map (fun i => Call.set_djump_def i 0)
          ++ tbl.map (fun pr => Call.set_djump_def pr.1
              ((element_index seq pr.2).getD 0))), Except.ok ()) := by
  unfold djumpPhaseSeq
  rw [hdt, hty]
  rw [if_neg (by simp)]
  rw [if_pos (by simp)]
  dsimp only
  rw [djumpWriteLoop_ok seq tbl hres]
  simp [tbind, temit]

theorem djumpPhaseSeq_ejum (p : Pulsar) (seq : Sequence)
    (hty : p.AWG_type = "opt09") (hdt : seq.djump_table = none) :
    djumpPhaseSeq p seq =
      ([Call.set_event_jump_mode "EJUM"], Except.ok ()) := by
  unfold djumpPhaseSeq
  rw [hdt, hty]
  rw [if_neg (by simp)]
  rw [if_pos (by simp)]
  rfl

theorem djumpPhaseAwg_unsupported (p : Pulsar) (seq : Sequence)
    (cfg : AwgSeqCfg) (tbl : List (Nat × String))
    (hdt : seq.djump_table = some tbl) (hty : p.AWG_type ≠ "opt09") :
    djumpPhaseAwg p seq cfg = Except.error
      "pulsar: The AWG configured does not support dynamic jumping" := by
  unfold djumpPhaseAwg
  rw [hdt, if_pos ⟨by simp, by simpa using hty⟩]

theorem filterMap_some_map {α β : Type} (f : α → β) (l : List α) :
    l.filterMap (fun a => some (f a)) = l.map f := by
  induction l with
  | nil => rfl
  | cons a rest ih => simp [List.filterMap_cons, ih]

theorem forceStep_calls (loop : Bool) (li : Option Nat) (fT : List Call)
    (hf : forceStep loop li = (fT, Except.ok ())) :
    ∀ c ∈ fT, isSqelCall c = true := by
  cases loop with
  | false =>
    simp only [forceStep, Bool.false_eq_true, if_false, tpure] at hf
    injection hf with h1 h2
    rw [← h1]
    intro c hc
    cases hc
  | true =>
    cases li with
    | none =>
      simp only [forceStep, if_pos rfl, tfail] at hf
      injection hf with h1 h2
      exact Except.noConfusion h2
    | some idx =>
      simp only [forceStep, if_pos rfl, temit] at hf
      injection hf with h1 h2
      rw [← h1]
      intro c hc
      simp at hc
      rcases hc with rfl | rfl <;> rfl

/-- C6: when a Sequence has its DynamicJumpTable enabled while the
configured device type does not support dynamic jumping, both strategies
fail with the explicit unsupported-dynamic-jump exception; on supporting
(opt09) hardware the incremental strategy first clears all 16 djump
slots to 0, then writes element_index(table[address]) for every
configured address, in table order, and switches the device into DJUM
mode; with the table disabled it switches into plain EJUM mode. -/
theorem c6_djump_handling (p : Pulsar) (seq : Sequence) (channels : ChanArg)
    (loop start : Bool) (elements : List Element) (debug : Bool) :
    (∀ cids jt ec li fT,
      resolveChanIds p channels = Except.ok cids →
      p.AWG_sequence_cfg.jump_timing = some jt →
      elementLoop seq cids 0 seq.elements = (ec, Except.ok li) →
      forceStep loop li = (fT, Except.ok ()) →
      ((seq.djump_table ≠ none → p.AWG_type ≠ "opt09" →
        (program_sequence p seq channels loop start).2 =
          Except.error "The AWG configured does not support dynamic jumping")
      ∧ (∀ tbl, p.AWG_type = "opt09" → seq.djump_table = some tbl →
          (∀ pr ∈ tbl, (element_index seq pr.2).isSome = true) →
          djumpDefCalls (program_sequence p seq channels loop start).1 =
            (List.range 16).map (fun i => (i, 0))
            ++ tbl.map (fun pr => (pr.1, (element_index seq pr.2).getD 0))
          ∧ Call.set_event_jump_mode "DJUM"
              ∈ (program_sequence p seq channels loop start).1)
      ∧ (p.AWG_type = "opt09" → seq.djump_table = none →
          Call.set_event_jump_mode "EJUM"
            ∈ (program_sequence p seq channels loop start).1)))
    ∧ (∀ cs pw nz cids nrep wait gl jl goto2 tbl,
      packPhase p channels (get_used_channel_ids p) elements [] [] =
        (cs, Except.ok (pw, nz)) →
      elements ≠ [] → element_count seq ≤ 8000 →
      resolveChanIds p channels = Except.ok cids →
      buildPropsLoop seq seq.elements = Except.ok (nrep, wait, gl, jl) →
      (if loop = true then setLastTo1 gl else Except.ok gl) =
        Except.ok goto2 →
      seq.djump_table = some tbl → p.AWG_type ≠ "opt09" →
      (program_awg p seq elements channels loop debug).2 =
        Except.error
          "pulsar: The AWG configured does not support dynamic jumping") := by
  constructor
  · intro cids jt ec li fT hr hjt hel hf
    refine ⟨?_, ?_, ?_⟩
    · intro hdne hty
      cases hdt : seq.djump_table with
      | none => exact absurd hdt hdne
      | some tbl =>
        rw [program_sequence_shape p seq channels loop start cids jt ec li fT
          hr hjt hel hf]
        rw [djumpPhaseSeq_unsupported p seq tbl hdt hty]
    · intro tbl hty hdt hres
      rw [program_sequence_shape p seq channels loop start cids jt ec li fT
        hr hjt hel hf]
      rw [djumpPhaseSeq_djum p seq tbl hty hdt hres]
      have hsu : (setup_channels p).filterMap djdOf = [] :=
        List.filterMap_eq_nil_iff.mpr (fun c hc =>
          (plain_cfg_extractors c (setup_channels_plain p false true c hc)
            0).2.2.1)
      have hac : (activate_channels p channels).filterMap djdOf = [] :=
        List.filterMap_eq_nil_iff.mpr (fun c hc =>
          (status_extractors c (activate_channels_status p channels c hc)
            0).2.2.1)
      have hec : ec.filterMap djdOf = [] :=
        List.filterMap_eq_nil_iff.mpr (fun c hc =>
          (sqel_extractors c (elementLoop_sqel seq cids seq.elements 0
            c (by rw [hel]; exact hc))).1)
      have hft : fT.filterMap djdOf = [] :=
        List.filterMap_eq_nil_iff.mpr (fun c hc =>
          (sqel_extractors c (forceStep_calls loop li fT hf c hc)).1)
      constructor
      · unfold djumpDefCalls
        simp only [List.filterMap_append, List.filterMap_cons, hsu, hac,
          hec, hft,
          show djdOf Call.stop = none from rfl,
          show djdOf (Call.set_runmode "SEQ") = none from rfl,
          show ∀ m, djdOf (Call.set_event_jump_timing m) = none
            from fun _ => rfl,
          show ∀ k, djdOf (Call.set_sq_length k) = none from fun _ => rfl,
          show ∀ m, djdOf (Call.set_event_jump_mode m) = none
            from fun _ => rfl]
        cases start <;>
          simp only [List.filterMap_map, List.filterMap_nil,
            show djdOf Call.start = none from rfl, List.filterMap_cons,
            List.append_nil, List.nil_append] <;>
          rw [show (djdOf ∘ fun i => Call.set_djump_def i 0) =
                (fun i : Nat => some ((i : Nat), (0 : Nat))) from rfl,
              show (djdOf ∘ fun pr : Nat × String => Call.set_djump_def pr.1
                  ((element_index seq pr.2).getD 0)) =
                (fun pr : Nat × String =>
                  some (pr.1, (element_index seq pr.2).getD 0)) from rfl,
              filterMap_some_map, filterMap_some_map] <;>
          simp [show djdOf Call.start = none from rfl]
      · simp
    · intro hty hdt
      rw [program_sequence_shape p seq channels loop start cids jt ec li fT
        hr hjt hel hf]
      rw [djumpPhaseSeq_ejum p seq hty hdt]
      simp
  · intro cs pw nz cids nrep wait gl jl goto2 tbl hpk hne h8 hr hbp hsl
      hdt hty
    unfold program_awg
    rw [hpk]
    simp only [tbind]
    rw [if_neg hne, if_neg (by omega)]
    unfold awgSeqPart
    rw [hr]
    dsimp only
    rw [hbp]
    dsimp only
    rw [hsl]
    dsimp only
    rw [djumpPhaseAwg_unsupported p seq p.AWG_sequence_cfg tbl hdt hty]
    rfl

/-- Witness for C6: a djump-enabled sequence on a regular (non-opt09)
device fails with the explicit unsupported exception. -/
theorem c6_witness :
    ((⟨"s6", [⟨"a", "w", 1, none, none, false⟩], some []⟩ :
        Sequence).djump_table ≠ none)
    ∧ (("regular" : String) ≠ "opt09")
    ∧ (program_sequence ⟨"regular", [], ⟨some 1, none, none⟩⟩
        ⟨"s6", [⟨"a", "w", 1, none, none, false⟩], some []⟩
        ChanArg.all false false).2 =
      Except.error "The AWG configured does not support dynamic jumping" := by
  refine ⟨by simp, by decide, ?_⟩
  exact ((c6_djump_handling ⟨"regular", [], ⟨some 1, none, none⟩⟩
      ⟨"s6", [⟨"a", "w", 1, none, none, false⟩], some []⟩
      ChanArg.all false false [] false).1 [] 1
      (elementLoop ⟨"s6", [⟨"a", "w", 1, none, none, false⟩], some []⟩
        [] 0 [⟨"a", "w", 1, none, none, false⟩]).1 (some 1) []
      rfl rfl rfl rfl).1 (by simp) (by decide)

/- ### C8, C10 -/

/-- C8: neither programming strategy mutates the Sequence object: the
state-passing wrappers return the sequence component unchanged, on both
the success and the exception path (the source assigns to no attribute
of the sequence or its element dicts). -/
theorem c8_sequence_not_mutated
    (p : Pulsar) (seq : Sequence) (channels : ChanArg) (loop start : Bool)
    (elements : List Element) (debug : Bool) :
    (program_sequence_state p seq channels loop start).1.2 = seq
    ∧ (program_awg_state p seq elements channels loop debug).1.2 = seq := by
  refine ⟨rfl, ?_⟩
  unfold program_awg_state
  cases h : (program_awg p seq elements channels loop debug).2 <;> simp [h]

/-- C10: on a Pulsar whose cfg carries the JUMP_TIMING key (any Pulsar
that reaches the element loop), program_sequence with loop=True on an
empty Sequence raises the NameError for the unbound loop variable idx:
the loop-forcing step reads idx, which only the never-entered per-element
loop assigns. -/
theorem c10_empty_sequence_loop_nameerror
    (p : Pulsar) (seq : Sequence) (start : Bool) (jt : Int)
    (hjt : p.AWG_sequence_cfg.jump_timing = some jt)
    (hempty : seq.elements = []) :
    (program_sequence p seq ChanArg.all true start).2 =
      Except.error "NameError: name idx is not defined" := by
  unfold program_sequence
  rw [show resolveChanIds p ChanArg.all =
        Except.ok (get_used_channel_ids p) from rfl]
  simp [tbind, temit, tpure, tfail, jumpTimingStep, hjt, hempty,
    elementLoop, forceStep]

/-- Witness for C10 at a concrete configured Pulsar and empty
sequence. -/
theorem c10_witness :
    (⟨"regular", [], ⟨some 1, none, none⟩⟩ :
        Pulsar).AWG_sequence_cfg.jump_timing = some 1
    ∧ (⟨"s", [], none⟩ : Sequence).elements = []
    ∧ (program_sequence ⟨"regular", [], ⟨some 1, none, none⟩⟩
        ⟨"s", [], none⟩ ChanArg.all true false).2 =
        Except.error "NameError: name idx is not defined" :=
  ⟨rfl, rfl,
    c10_empty_sequence_loop_nameerror ⟨"regular", [], ⟨some 1, none, none⟩⟩
      ⟨"s", [], none⟩ false 1 rfl rfl⟩

/- ### C4, C5, C9 -/

/-- Concrete empty sequence used for the C4 run. -/
def c4_seq0 : Sequence := ⟨"sq", [], none⟩

/-- The C4 sequence after set_djump(True). -/
def c4_start : Sequence := (set_djump c4_seq0 true).1

/-- Configure one djump address per pattern in the list, stopping at the
first exception. -/
def addMany : Sequence → List Nat → Except String Sequence
  | s, [] => Except.ok s
  | s, i :: rest =>
    match add_djump_address s i "x" with
    | Except.error e => Except.error e
    | Except.ok (s2, _) => addMany s2 rest

/-- C4: the code accepts more than 16 dynamic-jump addresses.  Adding 17
distinct addresses (0..16) through add_djump_address raises nothing and
leaves a 17-entry table, so no rejection happens at configuration time. -/
theorem c4_seventeen_addresses_accepted :
    (addMany c4_start (List.range 17)).map
      (fun s => (s.djump_table.getD []).length) = Except.ok 17 := by rfl

/-- C5: inserting an element whose name is already present, through
insert_element or append_element, returns False and leaves the sequence
completely unchanged (elements and djump table included), raising
nothing. -/
theorem c5_duplicate_insert_rejected
    (s : Sequence) (name wfname : String) (pos : Option Nat)
    (reps : Nat) (gt jt : Option String) (tw : Bool)
    (e : SeqElt) (pos2 : Option Nat) :
    ((∃ x ∈ s.elements, x.name = name) →
      insert_element s name wfname pos reps gt jt tw = (s, false))
    ∧ ((∃ x ∈ s.elements, x.name = e.name) →
      append_element s e pos2 = (s, false)) := by
  constructor
  · rintro ⟨x, hx, hname⟩
    have h : s.elements.any (fun e => e.name == name) = true := by
      simp only [List.any_eq_true]
      exact ⟨x, hx, by simp [hname]⟩
    simp [insert_element, h]
  · rintro ⟨x, hx, hname⟩
    have h : s.elements.any (fun y => y.name == e.name) = true := by
      simp only [List.any_eq_true]
      exact ⟨x, hx, by simp [hname]⟩
    simp [append_element, h]

/-- Witness for C5 at a concrete duplicate name. -/
theorem c5_witness :
    (∃ x ∈ (⟨"s", [⟨"a", "w", 1, none, none, false⟩], none⟩ :
        Sequence).elements, x.name = "a")
    ∧ insert_element ⟨"s", [⟨"a", "w", 1, none, none, false⟩], none⟩
        "a" "w2" none 1 none none false
      = (⟨"s", [⟨"a", "w", 1, none, none, false⟩], none⟩, false) := by
  refine ⟨⟨⟨"a", "w", 1, none, none, false⟩, by simp, rfl⟩, ?_⟩
  exact (c5_duplicate_insert_rejected
      ⟨"s", [⟨"a", "w", 1, none, none, false⟩], none⟩ "a" "w2" none 1
      none none false ⟨"a", "w", 1, none, none, false⟩ none).1
    ⟨⟨"a", "w", 1, none, none, false⟩, by simp, rfl⟩

/-- C9 counterexample: get_subchannels truncates to the first three
characters, so for an id longer than three characters the result is not
the triple built from the full id. -/
theorem c9_counterexample :
    get_subchannels "ch1_marker1" ≠
      ["ch1_marker1", "ch1_marker1" ++ "_marker1",
       "ch1_marker1" ++ "_marker2"] := by decide

/-- C9 (amended): get_subchannels returns the triple built from the
first three characters of the id; in particular for ids of length at
most three (the 3-character physical ids) it is the triple built from
the id itself. -/
theorem c9_subchannels_prefix3 (id : String) :
    get_subchannels id =
      [pySlice3 id, pySlice3 id ++ "_marker1", pySlice3 id ++ "_marker2"]
    ∧ (id.data.length ≤ 3 →
      get_subchannels id = [id, id ++ "_marker1", id ++ "_marker2"]) := by
  refine ⟨rfl, fun h => ?_⟩
  have hs : pySlice3 id = id := by
    unfold pySlice3
    rw [List.take_of_length_le h]
  rw [get_subchannels, hs]

/-- Witness for C9 at the concrete id ch1. -/
theorem c9_witness :
    ("ch1" : String).data.length ≤ 3
    ∧ get_subchannels "ch1" = ["ch1", "ch1" ++ "_marker1", "ch1" ++ "_marker2"] :=
  ⟨by decide, (c9_subchannels_prefix3 "ch1").2 (by decide)⟩

/-- C7: a sub-channel with no bound channel name, or whose bound name is
absent from the waveform dict of the element (suppliedSamples none), is
filled with an all-zero array of exactly element.samples() entries; a
bound name present in the dict contributes its samples unchanged; the
batch packing path (awgSubchannel) produces the same array as the
incremental one, and packChanWfs is the triple of sub-channel arrays. -/
theorem c7_subchannel_zero_fill (p : Pulsar) (e : Element) (id : String)
    (b : Option String) :
    (suppliedSamples e b = none →
      subchannelArray e b = List.replicate e.samples 0
      ∧ (subchannelArray e b).length = e.samples)
    ∧ (∀ l, suppliedSamples e b = some l → subchannelArray e b = l)
    ∧ (∀ arr flag, awgSubchannel e b = Except.ok (arr, flag) →
        arr = subchannelArray e b)
    ∧ packChanWfs p e id =
      ⟨subchannelArray e (get_channel_names_by_id p id).1,
       subchannelArray e (get_channel_names_by_id p id).2.1,
       subchannelArray e (get_channel_names_by_id p id).2.2⟩ := by
  refine ⟨fun h => ?_, fun l h => ?_, fun arr flag h => ?_, rfl⟩
  · simp [subchannelArray, h]
  · simp [subchannelArray, h]
  · unfold awgSubchannel at h
    cases hs : suppliedSamples e b with
    | none =>
      simp only [hs, Except.ok.injEq, Prod.mk.injEq] at h
      rw [subchannelArray, hs, Option.getD_none, ← h.1]
    | some l =>
      simp only [hs] at h
      cases hh : l.head? with
      | none => simp [hh] at h
      | some x =>
        simp only [hh, Except.ok.injEq, Prod.mk.injEq] at h
        rw [subchannelArray, hs, Option.getD_some, ← h.1]

/-- Witness for C7 at a concrete element with an unbound sub-channel. -/
theorem c7_witness :
    suppliedSamples ⟨"e", 4, [("a", [1, 2])]⟩ none = none
    ∧ (subchannelArray ⟨"e", 4, [("a", [1, 2])]⟩ none =
        List.replicate 4 0
      ∧ (subchannelArray ⟨"e", 4, [("a", [1, 2])]⟩ none).length = 4) :=
  ⟨rfl,
    (c7_subchannel_zero_fill ⟨"regular", [], ⟨none, none, none⟩⟩
      ⟨"e", 4, [("a", [1, 2])]⟩ "ch1" none).1 rfl⟩

end QtPulsar
